import Mathlib

/-!
Verification development for the Basketball_RAG query pipeline
(`src/query_generator.py`, `src/db_connector.py`, `src/entity_extractor.py`,
`src/rag_pipeline.py`).

Strings are embedded as `List Char`.  Each Python regular-expression test or
rewrite used by the code is embedded as an explicit scanner over the character
list, written to reproduce Python `re` semantics (case-insensitive literals,
`\b` word boundaries, `\s`/`\w` classes, greedy/lazy repetition where the
pattern makes it observable, leftmost-match and non-overlapping `re.sub`
scanning).  External collaborators (the language model, the SQLite cursor,
the fuzzy scorer, `json.loads`, the wall clock) are taken as function
parameters, mirroring the interfaces in section 6 of the specification.
-/

abbrev Str := List Char

/-- Python regex `\s` on the ASCII range used by these SQL strings. -/
def isWsChar (c : Char) : Bool :=
  c == ' ' || c == '\t' || c == '\n' || c == '\r' || c == '\x0b' || c == '\x0c'

/-- Python regex `\w`: letters, digits, underscore. -/
def isWordChar (c : Char) : Bool := c.isAlphanum || c == '_'

/-- Case-insensitive character comparison (re.IGNORECASE). -/
def eqCI (a b : Char) : Bool := a.toLower == b.toLower

/-- Match a literal case-insensitively at the head of `s`; return the rest. -/
def litCI : Str → Str → Option Str
  | [], s => some s
  | _ :: _, [] => none
  | c :: cs, d :: ds => if eqCI c d then litCI cs ds else none

/-- Match a literal case-sensitively at the head of `s`; return the rest. -/
def litCS : Str → Str → Option Str
  | [], s => some s
  | _ :: _, [] => none
  | c :: cs, d :: ds => if c == d then litCS cs ds else none

/-- Match one given character. -/
def chP (c : Char) : Str → Option Str
  | d :: ds => if d == c then some ds else none
  | [] => none

/-- `\s*` (greedy; every use site is followed by a non-`\s` literal, so greedy
matching agrees with Python's backtracking). -/
def ws0 (s : Str) : Option Str := some (s.dropWhile isWsChar)

/-- `\s+` (greedy, same caveat as `ws0`). -/
def ws1 : Str → Option Str
  | c :: cs => if isWsChar c then some (cs.dropWhile isWsChar) else none
  | [] => none

/-- `\w+` (greedy; always followed by a non-`\w` part in the patterns below). -/
def word1 : Str → Option Str
  | c :: cs => if isWordChar c then some (cs.dropWhile isWordChar) else none
  | [] => none

/-- `\d+` (greedy). -/
def digits1 : Str → Option Str
  | c :: cs => if c.isDigit then some (cs.dropWhile Char.isDigit) else none
  | [] => none

/-- `[^)]+` (greedy; always followed by `\)`, so it is the run up to the next
close parenthesis). -/
def nonRparen1 : Str → Option Str
  | c :: cs => if c == ')' then none else some (cs.dropWhile (fun d => !(d == ')')))
  | [] => none

/-- Case-sensitive substring test: Python `pat in s`. -/
def containsSub (pat : Str) : Str → Bool
  | [] => (litCS pat []).isSome
  | c :: cs => (litCS pat (c :: cs)).isSome || containsSub pat cs

/-- Python `s.lower()`. -/
def lowerStr (s : Str) : Str := s.map Char.toLower

/-- Python `s.strip()`. -/
def stripWs (s : Str) : Str := ((s.dropWhile isWsChar).reverse.dropWhile isWsChar).reverse

/-- `re.search` existence scan: try the matcher at every position, giving it
the previous character so it can decide `\b` and `^` anchors. -/
def searchAux (f : Option Char → Str → Bool) : Option Char → Str → Bool
  | _, [] => false
  | prev, c :: cs => f prev (c :: cs) || searchAux f (some c) cs

def searchOcc (f : Option Char → Str → Bool) (s : Str) : Bool := searchAux f none s

/-- `\b` before a token that starts with a `\w` character. -/
def boundaryBefore : Option Char → Bool
  | some p => !isWordChar p
  | none => true

/-- `\b` after a token that ends with a `\w` character. -/
def noWordAfter : Str → Bool
  | [] => true
  | c :: _ => !isWordChar c

/-- `(?!c)`: the next character is not `c` (true at end of string). -/
def nextIsNot (c : Char) : Str → Bool
  | [] => true
  | d :: _ => !(d == c)

/-- `\bTOK\b` at one position, case-insensitively. -/
def tokenAtCI (tok : Str) (prev : Option Char) (s : Str) : Bool :=
  boundaryBefore prev &&
    match litCI tok s with
    | some rest => noWordAfter rest
    | none => false

/-- `re.search(r'\bTOK\b', s, re.IGNORECASE)`. -/
def tokenSearchCI (tok : Str) (s : Str) : Bool := searchOcc (tokenAtCI tok) s

/-- `\bSIMILAR\s+TO\b` at one position (re.IGNORECASE). -/
def similarToAt (prev : Option Char) (s : Str) : Bool :=
  boundaryBefore prev &&
    match (litCI ("SIMILAR".toList) s).bind ws1 with
    | some r1 =>
      match litCI ("TO".toList) r1 with
      | some r2 => noWordAfter r2
      | none => false
    | none => false

/-- `re.search(r'\bSIMILAR\s+TO\b', s, re.IGNORECASE)`. -/
def similarToSearch (s : Str) : Bool := searchOcc similarToAt s

/-- `AVG\s*\([^)]+\)` at one position (re.IGNORECASE). -/
def avgParenAt (_prev : Option Char) (s : Str) : Bool :=
  (((((litCI ("AVG".toList) s).bind ws0).bind (chP '(')).bind nonRparen1).bind (chP ')')).isSome

/-- `re.search(r'GROUP\s+BY.*?AVG\s*\([^)]+\)', s, re.IGNORECASE | re.DOTALL)`
(query_generator.validate_sql line 380).  With DOTALL the lazy `.*?` reaches
any later position, so the search succeeds iff `GROUP\s+BY` matches somewhere
and `AVG\s*\([^)]+\)` matches at or after the end of that match. -/
def groupByAvgAtV (_prev : Option Char) (s : Str) : Bool :=
  match (litCI ("GROUP".toList) s).bind ws1 with
  | some r1 =>
    match litCI ("BY".toList) r1 with
    | some r2 => searchOcc avgParenAt r2
    | none => false
  | none => false

def groupByAvgSearchV (s : Str) : Bool := searchOcc groupByAvgAtV s

/-- `WITH\s+\w+\s+AS\s*\(` at one position (re.IGNORECASE). -/
def withAsAt (_prev : Option Char) (s : Str) : Bool :=
  (((((((litCI ("WITH".toList) s).bind ws1).bind word1).bind ws1).bind
      (litCI ("AS".toList))).bind ws0).bind (chP '(')).isSome

/-- `re.search(r'WHERE.*?WITH\s+\w+\s+AS\s*\(', s, re.IGNORECASE | re.DOTALL)`
(validate_sql line 384 and _ensure_sqlite_compatibility line 197). -/
def cteInWhereAt (_prev : Option Char) (s : Str) : Bool :=
  match litCI ("WHERE".toList) s with
  | some r => searchOcc withAsAt r
  | none => false

def cteInWhereSearch (s : Str) : Bool := searchOcc cteInWhereAt s

/-- `\bTOK\b(?!")` at one position (validate_sql's quoted-column checks). -/
def tokAtNoQuote (tok : Str) (prev : Option Char) (s : Str) : Bool :=
  boundaryBefore prev &&
    match litCI tok s with
    | some rest => noWordAfter rest && nextIsNot '"' rest
    | none => false

/-- The lookahead alternatives `\s*\(|\s*,|\s*FROM|\s*WHERE|\s*ORDER|\s*GROUP`
of the `TO` patterns (re.IGNORECASE). -/
def toExcludedFollow (rest : Str) : Bool :=
  let r := rest.dropWhile isWsChar
  (chP '(' r).isSome || (chP ',' r).isSome || (litCI ("FROM".toList) r).isSome ||
    (litCI ("WHERE".toList) r).isSome || (litCI ("ORDER".toList) r).isSome ||
    (litCI ("GROUP".toList) r).isSome

/-- `\bTO\b(?!\s*\(|\s*,|\s*FROM|\s*WHERE|\s*ORDER|\s*GROUP)(?!")` at one
position (validate_sql line 410). -/
def unqTOAt (prev : Option Char) (s : Str) : Bool :=
  boundaryBefore prev &&
    match litCI ("TO".toList) s with
    | some rest => noWordAfter rest && !(toExcludedFollow rest) && nextIsNot '"' rest
    | none => false

/-- The lookahead `(?=\s*=|\s*>|\s*<|\s*IN)` of the `No` patterns. -/
def noRequiredFollow (rest : Str) : Bool :=
  let r := rest.dropWhile isWsChar
  (chP '=' r).isSome || (chP '>' r).isSome || (chP '<' r).isSome ||
    (litCI ("IN".toList) r).isSome

/-- `\bNo\b(?=\s*=|\s*>|\s*<|\s*IN)(?!")` at one position (validate_sql
line 411). -/
def unqNoAt (prev : Option Char) (s : Str) : Bool :=
  boundaryBefore prev &&
    match litCI ("No".toList) s with
    | some rest => noWordAfter rest && noRequiredFollow rest && nextIsNot '"' rest
    | none => false

/-- `WHERE\s*\)` at one position (re.IGNORECASE). -/
def whereRparenAt (_prev : Option Char) (s : Str) : Bool :=
  match (litCI ("WHERE".toList) s).bind ws0 with
  | some r => (chP ')' r).isSome
  | none => false

/-- `WHERE\s*AND\s` at one position (re.IGNORECASE). -/
def whereAndWsAt (_prev : Option Char) (s : Str) : Bool :=
  match ((litCI ("WHERE".toList) s).bind ws0).bind (litCI ("AND".toList)) with
  | some (c :: _) => isWsChar c
  | _ => false

/-- `WHERE\s*OR\s` at one position (re.IGNORECASE). -/
def whereOrWsAt (_prev : Option Char) (s : Str) : Bool :=
  match ((litCI ("WHERE".toList) s).bind ws0).bind (litCI ("OR".toList)) with
  | some (c :: _) => isWsChar c
  | _ => false

/-- `\(\s*\)` at one position. -/
def emptyParenAt (_prev : Option Char) (s : Str) : Bool :=
  match (chP '(' s).bind ws0 with
  | some r => (chP ')' r).isSome
  | none => false

/-- The one table the generator targets (`SQLQueryGenerator.__init__` default). -/
def table_name : Str := "ucla_player_stats".toList

/-- `forbidden_patterns` of `validate_sql` (query_generator lines 388-400),
in source order, each as (search, error message). -/
def forbidden_patterns : List ((Str → Bool) × String) := [
  (tokenSearchCI ("EXTRACT".toList), "EXTRACT function not supported in SQLite"),
  (tokenSearchCI ("INTERVAL".toList), "INTERVAL syntax not supported in SQLite"),
  (tokenSearchCI ("DATE_TRUNC".toList), "DATE_TRUNC function not supported in SQLite"),
  (tokenSearchCI ("STDDEV".toList), "STDDEV function not supported in SQLite"),
  (tokenSearchCI ("VARIANCE".toList), "VARIANCE function not supported in SQLite"),
  (tokenSearchCI ("ILIKE".toList), "ILIKE operator not supported in SQLite"),
  (containsSub ("::".toList), "PostgreSQL type casting (::) not supported in SQLite"),
  (similarToSearch, "SIMILAR TO operator not supported in SQLite"),
  (tokenSearchCI ("ARRAY".toList), "ARRAY type not supported in SQLite"),
  (tokenSearchCI ("UNNEST".toList), "UNNEST function not supported in SQLite"),
  (tokenSearchCI ("SPLIT_PART".toList), "SPLIT_PART function not supported in SQLite")]

/-- `unquoted_special_columns` of `validate_sql` (lines 407-412). -/
def unquoted_special_columns : List ((Str → Bool) × String) := [
  (searchOcc (tokAtNoQuote ("3PTM".toList)), "Column 3PTM must be quoted as \"3PTM\""),
  (searchOcc (tokAtNoQuote ("3PTA".toList)), "Column 3PTA must be quoted as \"3PTA\""),
  (searchOcc unqTOAt, "Column TO must be quoted as \"TO\""),
  (searchOcc unqNoAt, "Column No must be quoted as \"No\"")]

/-- `syntax_issues` of `validate_sql` (lines 419-424). -/
def syntax_issues : List ((Str → Bool) × String) := [
  (searchOcc whereRparenAt, "Empty WHERE clause"),
  (searchOcc whereAndWsAt, "WHERE clause starts with AND"),
  (searchOcc whereOrWsAt, "WHERE clause starts with OR"),
  (searchOcc emptyParenAt, "Empty parentheses")]

/-- `SQLQueryGenerator.validate_sql` (query_generator lines 372-438):
sequential short-circuit checks, first failing rule wins; returns
(is_valid, reason). -/
def validate_sql (sql : Str) : Bool × Option String :=
  if (stripWs sql).isEmpty then (false, some "Empty SQL query")
  else if groupByAvgSearchV sql then
    (false, some "SQLite syntax error: aggregate functions are not allowed in the GROUP BY clause")
  else if cteInWhereSearch sql then
    (false, some "SQLite syntax error: CTE (WITH clause) cannot be used inside WHERE clause")
  else match forbidden_patterns.find? (fun p => p.1 sql) with
  | some p => (false, some p.2)
  | none =>
    match unquoted_special_columns.find? (fun p => p.1 sql) with
    | some p => (false, some p.2)
    | none =>
      match syntax_issues.find? (fun p => p.1 sql) with
      | some p => (false, some ("Syntax error: " ++ p.2))
      | none =>
        if !(containsSub table_name sql) then
          (false, some "Query must reference table 'ucla_player_stats'")
        else if !(tokenSearchCI ("SELECT".toList) sql) then
          (false, some "Query must contain SELECT statement")
        else (true, none)

/-- C1: every SQL string accepted by `validate_sql` contains none of the seven
forbidden-construct tokens EXTRACT, INTERVAL, ILIKE, `::`, STDDEV, VARIANCE,
SIMILAR TO (matched case-insensitively, as tokens). -/
theorem validate_sql_no_forbidden (sql : Str) (h : (validate_sql sql).1 = true) :
    tokenSearchCI ("EXTRACT".toList) sql = false ∧
    tokenSearchCI ("INTERVAL".toList) sql = false ∧
    tokenSearchCI ("ILIKE".toList) sql = false ∧
    containsSub ("::".toList) sql = false ∧
    tokenSearchCI ("STDDEV".toList) sql = false ∧
    tokenSearchCI ("VARIANCE".toList) sql = false ∧
    similarToSearch sql = false := by
  unfold validate_sql at h
  split at h
  · simp at h
  split at h
  · simp at h
  split at h
  · simp at h
  split at h
  · simp at h
  next hfind =>
  have hall := List.find?_eq_none.mp hfind
  refine ⟨?_, ?_, ?_, ?_, ?_, ?_, ?_⟩
  · simpa using hall _ (List.Mem.head _)
  · simpa using hall _ (List.Mem.tail _ (List.Mem.head _))
  · simpa using hall _ (List.Mem.tail _ (List.Mem.tail _ (List.Mem.tail _ (List.Mem.tail _
      (List.Mem.tail _ (List.Mem.head _))))))
  · simpa using hall _ (List.Mem.tail _ (List.Mem.tail _ (List.Mem.tail _ (List.Mem.tail _
      (List.Mem.tail _ (List.Mem.tail _ (List.Mem.head _)))))))
  · simpa using hall _ (List.Mem.tail _ (List.Mem.tail _ (List.Mem.tail _ (List.Mem.head _))))
  · simpa using hall _ (List.Mem.tail _ (List.Mem.tail _ (List.Mem.tail _ (List.Mem.tail _
      (List.Mem.head _)))))
  · simpa using hall _ (List.Mem.tail _ (List.Mem.tail _ (List.Mem.tail _ (List.Mem.tail _
      (List.Mem.tail _ (List.Mem.tail _ (List.Mem.tail _ (List.Mem.head _))))))))

def c1Witness : Str := "SELECT Pts FROM ucla_player_stats".toList

/-- C1 witness: a concrete accepted query, instantiating
`validate_sql_no_forbidden`. -/
theorem validate_sql_no_forbidden_witness :
    (validate_sql c1Witness).1 = true ∧
    (tokenSearchCI ("EXTRACT".toList) c1Witness = false ∧
      tokenSearchCI ("INTERVAL".toList) c1Witness = false ∧
      tokenSearchCI ("ILIKE".toList) c1Witness = false ∧
      containsSub ("::".toList) c1Witness = false ∧
      tokenSearchCI ("STDDEV".toList) c1Witness = false ∧
      tokenSearchCI ("VARIANCE".toList) c1Witness = false ∧
      similarToSearch c1Witness = false) :=
  ⟨by decide, validate_sql_no_forbidden c1Witness (by decide)⟩

def c3Cex : Str := "SELECT ( FROM ucla_player_stats".toList

/-- C3 counterexample: `validate_sql` accepts a query whose parenthesis counts
differ (it has no balance check), refuting the claim as stated. -/
theorem validate_sql_accepts_unbalanced_parens :
    (validate_sql c3Cex).1 = true ∧ c3Cex.count '(' ≠ c3Cex.count ')' := by decide

/-! ## The `re.sub` rewriting framework used by the repair pass -/

/-- A `re.sub` rewrite step: at a position (given the previous original
character, for `\b` and MULTILINE `^`), either no match, or
`(replacement, extra)` where the match consumed `extra + 1` characters of the
original string.  Every pattern below matches at least one character. -/
abbrev Matcher := Option Char → Str → Option (Str × Nat)

/-- Left-to-right non-overlapping rewriting, as `re.sub` scans the original
string; the fuel starts at the string length and each step consumes at least
one character. -/
def subGo (m : Matcher) : Nat → Option Char → Str → Str
  | 0, _, s => s
  | _ + 1, _, [] => []
  | fuel + 1, prev, c :: cs =>
    match m prev (c :: cs) with
    | some (rep, extra) =>
      rep ++ subGo m fuel (some ((c :: cs.take extra).getLastD c)) (cs.drop extra)
    | none => c :: subGo m fuel (some c) cs

def reSub (m : Matcher) (s : Str) : Str := subGo m s.length none s

/-- Literal case-sensitive replacement (`str.replace`, and `re.sub` on a
pattern with no metacharacters). -/
def litReplaceCSM (pat rep : Str) : Matcher := fun _ s =>
  match litCS pat s with
  | some rest => some (rep, s.length - rest.length - 1)
  | none => none

/-- Literal case-insensitive replacement. -/
def litReplaceCIM (pat rep : Str) : Matcher := fun _ s =>
  match litCI pat s with
  | some rest => some (rep, s.length - rest.length - 1)
  | none => none

/-- `\bTOK\b` → `rep`, case-insensitive match, fixed replacement text. -/
def tokenReplaceCIM (tok rep : Str) : Matcher := fun prev s =>
  if boundaryBefore prev then
    match litCI tok s with
    | some rest =>
      if noWordAfter rest then some (rep, s.length - rest.length - 1) else none
    | none => none
  else none

/-! ## The individual rewrite rules of `_ensure_sqlite_compatibility` -/

/-- Python `\s+([^)]+)\)` with its backtracking: the group ends at the first
`)`, and the greedy `\s+` keeps as many whitespace characters as possible
while leaving the group nonempty.  Returns (group, rest after the `)`). -/
def wsGroupRparen (r : Str) : Option (Str × Str) :=
  let m := (r.takeWhile isWsChar).length
  let d := (r.takeWhile (fun c => !(c == ')'))).length
  if d < r.length ∧ 1 ≤ m ∧ 2 ≤ d then
    let k := min m (d - 1)
    some ((r.drop k).take (d - k), r.drop (d + 1))
  else none

/-- Python `\s*([^)]+)\s*\)` with its backtracking: the greedy group runs to
the first `)` (so the trailing `\s*` is empty), and the leading greedy `\s*`
keeps as much whitespace as possible while leaving the group nonempty. -/
def ws0GroupRparen (r : Str) : Option (Str × Str) :=
  let m := (r.takeWhile isWsChar).length
  let d := (r.takeWhile (fun c => !(c == ')'))).length
  if d < r.length ∧ 1 ≤ d then
    let k := min m (d - 1)
    some ((r.drop k).take (d - k), r.drop (d + 1))
  else none

/-- `EXTRACT\s*\(\s*PART\s+FROM\s+([^)]+)\)` → `strftime('FMT', \1)`
(query_generator lines 204-206, re.IGNORECASE). -/
def extractDatePartM (part fmt : Str) : Matcher := fun _ s =>
  match ((((((litCI ("EXTRACT".toList) s).bind ws0).bind (chP '(')).bind ws0).bind
      (litCI part)).bind ws1).bind (litCI ("FROM".toList)) with
  | some r1 =>
    match wsGroupRparen r1 with
    | some (g, rest) =>
      some ("strftime('".toList ++ fmt ++ "', ".toList ++ g ++ [')'],
        s.length - rest.length - 1)
    | none => none
  | none => none

def isQuoteChar (c : Char) : Bool := c == '\'' || c == '"'

/-- Tail of the INTERVAL patterns after the first group:
`\s*SIGN\s*INTERVAL\s+'(\d+)'\s*UNIT`.  Returns (digit group, rest). -/
def intervalTail (sign : Char) (unit : Str) (r : Str) : Option (Str × Str) :=
  match (((((ws0 r).bind (chP sign)).bind ws0).bind
      (litCI ("INTERVAL".toList))).bind ws1).bind (chP '\'') with
  | some r3 =>
    let ds := r3.takeWhile Char.isDigit
    if ds.isEmpty then none
    else
      match chP '\'' (r3.drop ds.length) with
      | some r4 =>
        match (ws0 r4).bind (litCI unit) with
        | some r5 => some (ds, r5)
        | none => none
      | none => none
  | none => none

/-- Greedy search for the first group of the INTERVAL patterns.  The group is
a nonempty run of non-quote characters; Python's greedy backtracking tries
the longest group first, which this recursion mirrors by preferring to extend
the group through the current character before trying to end it here.
Returns (group, digits, rest after the unit). -/
def tryIntervalSplit (sign : Char) (unit : Str) : Str → Option (Str × Str × Str)
  | [] => none
  | c :: cs =>
    if isQuoteChar c then none
    else
      match tryIntervalSplit sign unit cs with
      | some (g, ds, rest) => some (c :: g, ds, rest)
      | none =>
        match intervalTail sign unit cs with
        | some (ds, rest) => some ([c], ds, rest)
        | none => none

/-- `([^'"]+)\s*SIGN\s*INTERVAL\s+'(\d+)'\s*UNIT` → `date(\1, 'SIGN\2 WORD')`
(query_generator lines 209-212, re.IGNORECASE). -/
def intervalM (sign : Char) (unit word : Str) : Matcher := fun _ s =>
  match tryIntervalSplit sign unit s with
  | some (g, ds, rest) =>
    some ("date(".toList ++ g ++ ", '".toList ++ [sign] ++ ds ++ [' '] ++ word ++
      "')".toList, s.length - rest.length - 1)
  | none => none

/-- `\bSPLIT_PART\s*\([^)]+\)` → `substr` (line 224, re.IGNORECASE). -/
def splitPartM : Matcher := fun prev s =>
  if boundaryBefore prev then
    match ((((litCI ("SPLIT_PART".toList) s).bind ws0).bind (chP '(')).bind
        nonRparen1).bind (chP ')') with
    | some rest => some ("substr".toList, s.length - rest.length - 1)
    | none => none
  else none

/-- `\bSTDDEV\s*\(\s*([^)]+)\s*\)` →
`SQRT(AVG((\1 - sub_avg) * (\1 - sub_avg)))` (line 225, re.IGNORECASE). -/
def stddevM : Matcher := fun prev s =>
  if boundaryBefore prev then
    match ((litCI ("STDDEV".toList) s).bind ws0).bind (chP '(') with
    | some r1 =>
      match ws0GroupRparen r1 with
      | some (g, rest) =>
        some ("SQRT(AVG((".toList ++ g ++ " - sub_avg) * (".toList ++ g ++
          " - sub_avg)))".toList, s.length - rest.length - 1)
      | none => none
    | none => none
  else none

/-- `\bVARIANCE\s*\(\s*([^)]+)\s*\)` → `AVG((\1 - sub_avg) * (\1 - sub_avg))`
(line 226, re.IGNORECASE). -/
def varianceM : Matcher := fun prev s =>
  if boundaryBefore prev then
    match ((litCI ("VARIANCE".toList) s).bind ws0).bind (chP '(') with
    | some r1 =>
      match ws0GroupRparen r1 with
      | some (g, rest) =>
        some ("AVG((".toList ++ g ++ " - sub_avg) * (".toList ++ g ++
          " - sub_avg))".toList, s.length - rest.length - 1)
      | none => none
    | none => none
  else none

/-- `\bTO\b(?!\s*\(|\s*,|\s*FROM|\s*WHERE|\s*ORDER|\s*GROUP)` → `"TO"`
(line 232, re.IGNORECASE; unlike validate_sql's check it has no `(?!")`). -/
def ensureTOM : Matcher := fun prev s =>
  if boundaryBefore prev then
    match litCI ("TO".toList) s with
    | some rest =>
      if noWordAfter rest && !(toExcludedFollow rest) then
        some ("\"TO\"".toList, s.length - rest.length - 1)
      else none
    | none => none
  else none

/-- `\bNo\b(?=\s*=|\s*>|\s*<|\s*IN)` → `"No"` (line 233, re.IGNORECASE). -/
def ensureNoM : Matcher := fun prev s =>
  if boundaryBefore prev then
    match litCI ("No".toList) s with
    | some rest =>
      if noWordAfter rest && noRequiredFollow rest then
        some ("\"No\"".toList, s.length - rest.length - 1)
      else none
    | none => none
  else none

/-- `WHERE\s*\)` → `)` (line 242, re.IGNORECASE). -/
def whereRparenM : Matcher := fun _ s =>
  match ((litCI ("WHERE".toList) s).bind ws0).bind (chP ')') with
  | some rest => some ([')'], s.length - rest.length - 1)
  | none => none

/-- `WHERE\s*AND` → `WHERE` (line 243, re.IGNORECASE). -/
def whereAndM : Matcher := fun _ s =>
  match ((litCI ("WHERE".toList) s).bind ws0).bind (litCI ("AND".toList)) with
  | some rest => some ("WHERE".toList, s.length - rest.length - 1)
  | none => none

/-- `WHERE\s*OR` → `WHERE` (line 244, re.IGNORECASE). -/
def whereOrM : Matcher := fun _ s =>
  match ((litCI ("WHERE".toList) s).bind ws0).bind (litCI ("OR".toList)) with
  | some rest => some ("WHERE".toList, s.length - rest.length - 1)
  | none => none

/-- `\(\s*\)` → `(SELECT 1)` (line 247, no flags). -/
def emptyParenM : Matcher := fun _ s =>
  match ((chP '(' s).bind ws0).bind (chP ')') with
  | some rest => some ("(SELECT 1)".toList, s.length - rest.length - 1)
  | none => none

/-- `""([^"]+)""` → `"\1"` (line 250). -/
def dblDblQuoteM : Matcher := fun _ s =>
  match (chP '"' s).bind (chP '"') with
  | some r1 =>
    let g := r1.takeWhile (fun c => !(c == '"'))
    if g.isEmpty then none
    else
      match (chP '"' (r1.drop g.length)).bind (chP '"') with
      | some rest => some ('"' :: (g ++ ['"']), s.length - rest.length - 1)
      | none => none
  | none => none

/-- MULTILINE `^` anchor: start of string or right after a newline. -/
def atLineStart : Option Char → Bool
  | none => true
  | some c => c == '\n'

/-- Body of `^\s*\(\s*SELECT` after the anchor. -/
def lparenSelectP (s : Str) : Option Str :=
  (((ws0 s).bind (chP '(')).bind ws0).bind (litCI ("SELECT".toList))

def lparenSelectStartAt (prev : Option Char) (s : Str) : Bool :=
  atLineStart prev && (lparenSelectP s).isSome

/-- `^\s*\(\s*SELECT` → `WITH temp_table AS (SELECT` (line 257,
re.IGNORECASE | re.MULTILINE). -/
def lparenSelectStartM : Matcher := fun prev s =>
  if atLineStart prev then
    match lparenSelectP s with
    | some rest => some ("WITH temp_table AS (SELECT".toList, s.length - rest.length - 1)
    | none => none
  else none

/-- `\)\s*SELECT` → `) SELECT` (line 263, re.IGNORECASE). -/
def rparenSelectM : Matcher := fun _ s =>
  match ((chP ')' s).bind ws0).bind (litCI ("SELECT".toList)) with
  | some rest => some (") SELECT".toList, s.length - rest.length - 1)
  | none => none

/-- Parser form of `WITH\s+\w+\s+AS\s*\(`. -/
def withAsP (s : Str) : Option Str :=
  ((((((litCI ("WITH".toList) s).bind ws1).bind word1).bind ws1).bind
    (litCI ("AS".toList))).bind ws0).bind (chP '(')

/-- `WITH\s+\w+\s+AS\s*\(` → `(` (`_fix_cte_in_where_clause` lines 363-368,
re.IGNORECASE). -/
def withAsReplaceM : Matcher := fun _ s =>
  match withAsP s with
  | some rest => some (['('], s.length - rest.length - 1)
  | none => none

/-! ## `_ensure_sqlite_compatibility` assembled in source order -/

/-- The fixed query of `_fix_opponent_strength_query` (lines 310-322), as the
Python triple-quoted literal before `.strip()`. -/
def opponentTemplateRaw : Str :=
  ("\n        SELECT\n          'vs_all_opponents' as analysis_type,\n          COUNT(*) as games_played,\n          ROUND(AVG(Pts), 1) as avg_points,\n          ROUND(AVG(Reb), 1) as avg_rebounds,\n          ROUND(CAST(SUM(FGM) AS REAL) / NULLIF(SUM(FGA), 0) * 100, 1) as fg_percentage,\n          ROUND(AVG(Blk), 1) as avg_blocks,\n          GROUP_CONCAT(DISTINCT Opponent) as opponents_faced\n        FROM ucla_player_stats\n        WHERE Name = 'Betts, Lauren'\n          AND Name NOT IN ('Totals', 'TM', 'Team')\n        ").toList

/-- `_fix_opponent_strength_query` (lines 305-325): ignores its input and
returns the fixed template, stripped. -/
def fix_opponent_strength_query (_sql : Str) : Str := stripWs opponentTemplateRaw

/-- The fixed close-games query of `_fix_cte_in_where_clause` (lines 334-356),
before `.strip()`. -/
def closeGamesCteTemplateRaw : Str :=
  ("\n            SELECT \n              Name,\n              COUNT(*) as games_played,\n              ROUND(AVG(Pts), 1) as avg_pts,\n              ROUND(AVG(Ast), 1) as avg_ast,\n              ROUND(AVG(Reb), 1) as avg_reb,\n              ROUND(AVG(\"TO\"), 1) as avg_to,\n              ROUND(CAST(SUM(FGM) AS REAL) / NULLIF(SUM(FGA), 0) * 100, 1) as fg_pct,\n              ROUND(CAST(SUM(\"3PTM\") AS REAL) / NULLIF(SUM(\"3PTA\"), 0) * 100, 1) as three_pt_pct,\n              ROUND(CAST(SUM(FTM) AS REAL) / NULLIF(SUM(FTA), 0) * 100, 1) as ft_pct\n            FROM ucla_player_stats\n            WHERE Name IN ('Rice, Kiki', 'Jones, Londynn')\n              AND Name NOT IN ('Totals', 'TM', 'Team')\n              AND game_date IN (\n                SELECT game_date \n                FROM ucla_player_stats \n                WHERE Name = 'Totals' \n                AND Pts BETWEEN 70 AND 90\n              )\n            GROUP BY Name\n            ORDER BY avg_pts DESC\n            ").toList

/-- `_fix_cte_in_where_clause` (lines 327-370). -/
def fix_cte_in_where_clause (sql : Str) : Str :=
  if containsSub ("close".toList) (lowerStr sql) &&
      (containsSub ("Rice".toList) sql || containsSub ("Jones".toList) sql) then
    stripWs closeGamesCteTemplateRaw
  else reSub withAsReplaceM sql

/-- `GROUP\s+BY\s+.*?AVG\s*\([^)]+\).*?(?=ORDER|LIMIT|$)` (line 189,
re.IGNORECASE | re.DOTALL).  The trailing lazy `.*?(?=ORDER|LIMIT|$)` is
always satisfiable (the `$` branch of the lookahead holds at the end of the
string and DOTALL lets `.*?` reach it), so the search reduces to
`GROUP\s+BY\s+` followed anywhere later by `AVG\s*\([^)]+\)`. -/
def groupByAvgAtE (_prev : Option Char) (s : Str) : Bool :=
  match ((((litCI ("GROUP".toList) s).bind ws1).bind (litCI ("BY".toList))).bind ws1) with
  | some r2 => searchOcc avgParenAt r2
  | none => false

def groupByAvgSearchE (s : Str) : Bool := searchOcc groupByAvgAtE s

/-- The ordered `replacements` dict of `_ensure_sqlite_compatibility`
(lines 202-235), one `re.sub` pass per rule. -/
def replacementRules : List Matcher := [
  extractDatePartM ("YEAR".toList) ("%Y".toList),
  extractDatePartM ("MONTH".toList) ("%m".toList),
  extractDatePartM ("DAY".toList) ("%d".toList),
  intervalM '+' ("DAY".toList) ("days".toList),
  intervalM '-' ("DAY".toList) ("days".toList),
  intervalM '+' ("MONTH".toList) ("months".toList),
  intervalM '-' ("MONTH".toList) ("months".toList),
  litReplaceCIM ("::text".toList) [],
  litReplaceCIM ("::integer".toList) [],
  litReplaceCIM ("::float".toList) [],
  litReplaceCIM ("::date".toList) [],
  tokenReplaceCIM ("ILIKE".toList) ("LIKE".toList),
  splitPartM,
  stddevM,
  varianceM,
  tokenReplaceCIM ("3PTM".toList) ("\"3PTM\"".toList),
  tokenReplaceCIM ("3PTA".toList) ("\"3PTA\"".toList),
  tokenReplaceCIM ("3PT".toList) ("\"3PT\"".toList),
  ensureTOM,
  ensureNoM,
  tokenReplaceCIM ("OR-DR".toList) ("\"OR-DR\"".toList)]

def applyReplacements (s : Str) : Str := replacementRules.foldl (fun acc m => reSub m acc) s

/-- One `re.sub(r'\)\s*$', '', s, count=1)` step of the extra-close-paren
loop (line 275): drop a final `)` together with any whitespace after it; a
string not ending that way is unchanged. -/
def removeTrailingClose (s : Str) : Str :=
  match s.reverse.dropWhile isWsChar with
  | c :: rest => if c == ')' then rest.reverse else s
  | [] => s

/-- The parenthesis balancing step (lines 266-275): pad missing `)` at the
end, or try to trim `close - open` trailing `)`. -/
def parenFix (s : Str) : Str :=
  if s.count ')' < s.count '(' then s ++ List.replicate (s.count '(' - s.count ')') ')'
  else if s.count '(' < s.count ')' then removeTrailingClose^[s.count ')' - s.count '('] s
  else s

/-- The malformed-CTE fix (lines 253-260). -/
def malformedCteFix (s : Str) : Str :=
  if searchOcc lparenSelectStartAt s && !(tokenSearchCI ("WITH".toList) s) then
    let s1 := reSub lparenSelectStartM s
    if s1.count ')' < s1.count '(' then
      reSub (litReplaceCSM ("\n)\nSELECT".toList) (")\nSELECT".toList)) s1
    else s1
  else s

/-- `simple_columns` (line 278). -/
def simple_columns : List Str := [
  "Name".toList, "Pts".toList, "Reb".toList, "Ast".toList, "Stl".toList,
  "Blk".toList, "Min".toList, "FG".toList, "FT".toList, "Opponent".toList,
  "game_date".toList]

/-- Lines 278-280: strip double quotes from simple column names
(`re.sub(f'"{col}"', col, ...)`, case-sensitive). -/
def unquoteSimple (s : Str) : Str :=
  simple_columns.foldl (fun acc col => reSub (litReplaceCSM ('"' :: (col ++ ['"'])) col) acc) s

/-- `\bCOL\b(?!["'])` → `"COL"` for a special column (lines 292-295,
case-sensitive: this loop passes no flags). -/
def quoteColM (col : Str) : Matcher := fun prev s =>
  if boundaryBefore prev then
    match litCS col s with
    | some rest =>
      if noWordAfter rest && nextIsNot '"' rest && nextIsNot '\'' rest then
        some ('"' :: (col ++ ['"']), s.length - rest.length - 1)
      else none
    | none => none
  else none

/-- `special_columns` (lines 283-290), in dict order. -/
def special_columns : List Str :=
  ["TO".toList, "3PTM".toList, "3PTA".toList, "3PT".toList, "No".toList, "OR-DR".toList]

def quoteSpecial (s : Str) : Str :=
  special_columns.foldl (fun acc col => reSub (quoteColM col) acc) s

/-- Steps of `_ensure_sqlite_compatibility` before the parenthesis balancing
(lines 185-263). -/
def ensurePre (sql : Str) : Str :=
  let s1 := if groupByAvgSearchE sql then
      (if containsSub ("opponent_strength".toList) (lowerStr sql) ||
          containsSub ("stronger.*weaker".toList) (lowerStr sql) then
        fix_opponent_strength_query sql
      else sql)
    else sql
  let s2 := if cteInWhereSearch s1 then fix_cte_in_where_clause s1 else s1
  let s3 := applyReplacements s2
  let s4 := reSub whereRparenM s3
  let s5 := reSub whereAndM s4
  let s6 := reSub whereOrM s5
  let s7 := reSub emptyParenM s6
  let s8 := reSub dblDblQuoteM s7
  let s9 := malformedCteFix s8
  reSub rparenSelectM s9

/-- Steps from the parenthesis balancing on (lines 266-295). -/
def ensurePost (s : Str) : Str := quoteSpecial (unquoteSimple (parenFix s))

/-- `SQLQueryGenerator._ensure_sqlite_compatibility` (lines 178-303). -/
def ensure_sqlite_compatibility (sql : Str) : Str :=
  if sql.isEmpty then sql else ensurePost (ensurePre sql)

/-! ## Parenthesis bookkeeping of the repair pass (claim C3) -/

theorem count_subGo (m : Matcher) (ch : Char)
    (hm : ∀ prev s rep extra, m prev s = some (rep, extra) →
      rep.count ch = ((s : Str).take (extra + 1)).count ch) :
    ∀ fuel prev s, ((subGo m fuel prev s : Str).count ch) = (s : Str).count ch := by
  intro fuel
  induction fuel with
  | zero => intro prev s; rfl
  | succ n ih =>
    intro prev s
    cases s with
    | nil => rfl
    | cons c cs =>
      cases hms : m prev (c :: cs) with
      | none =>
        simp only [subGo, hms, List.count_cons]
        rw [ih]
      | some pr =>
        obtain ⟨rep, extra⟩ := pr
        have hr := hm prev (c :: cs) rep extra hms
        simp only [subGo, hms]
        calc ((rep ++ subGo m n (some ((c :: cs.take extra).getLastD c)) (cs.drop extra) : Str).count ch)
            = (rep : Str).count ch + ((subGo m n _ (cs.drop extra) : Str).count ch) :=
              List.count_append ..
          _ = (((c :: cs : Str).take (extra + 1)).count ch) + ((cs.drop extra : Str).count ch) := by
              rw [hr, ih]
          _ = (((c :: cs : Str).take (extra + 1)).count ch) + (((c :: cs : Str).drop (extra + 1)).count ch) := by
              rfl
          _ = ((c :: cs : Str).count ch) := by
              rw [← List.count_append, List.take_append_drop]

theorem count_reSub (m : Matcher) (ch : Char)
    (hm : ∀ prev s rep extra, m prev s = some (rep, extra) →
      rep.count ch = ((s : Str).take (extra + 1)).count ch) (s : Str) :
    ((reSub m s : Str).count ch) = s.count ch :=
  count_subGo m ch hm s.length none s

theorem litCS_eq_append : ∀ pat s rest, litCS pat s = some rest → s = pat ++ rest := by
  intro pat
  induction pat with
  | nil =>
    intro s rest h
    simp only [litCS, Option.some.injEq] at h
    simp [h]
  | cons c cs ih =>
    intro s rest h
    cases s with
    | nil => simp [litCS] at h
    | cons d ds =>
      simp only [litCS] at h
      split at h
      · next heq =>
        have hd : c = d := by simpa using heq
        have := ih ds rest h
        simp [← hd, this]
      · exact absurd h (by simp)

theorem count_reSub_litCS (pat rep : Str) (hp : pat ≠ []) (ch : Char)
    (hpr : rep.count ch = pat.count ch) (s : Str) :
    ((reSub (litReplaceCSM pat rep) s : Str).count ch) = s.count ch := by
  apply count_reSub
  intro prev t rep' extra h
  unfold litReplaceCSM at h
  cases hl : litCS pat t with
  | none => rw [hl] at h; exact absurd h (by simp)
  | some rest =>
    rw [hl] at h
    simp only [Option.some.injEq, Prod.mk.injEq] at h
    obtain ⟨h1, h2⟩ := h
    have ht := litCS_eq_append pat t rest hl
    subst ht h1
    have hlp : pat.length ≠ 0 := by
      intro hz; exact hp (List.eq_nil_of_length_eq_zero hz)
    have hlen : extra + 1 = pat.length := by
      rw [← h2]
      simp only [List.length_append]
      omega
    rw [hlen, List.take_left, hpr]

theorem count_quoted (col : Str) (ch : Char) (hq : ¬ (('"' : Char) = ch)) :
    (('"' :: (col ++ ['"']) : Str).count ch) = col.count ch := by
  have hfalse : (ch == '"') = false := by
    simp only [beq_eq_false_iff_ne]
    intro h
    exact hq h.symm
  simp [List.count_cons, List.count_append, hfalse, hq]

theorem count_reSub_unquote (col : Str) (ch : Char) (hq : ¬ (('"' : Char) = ch)) (s : Str) :
    ((reSub (litReplaceCSM ('"' :: (col ++ ['"'])) col) s : Str).count ch) = s.count ch := by
  apply count_reSub_litCS
  · exact List.cons_ne_nil _ _
  · rw [count_quoted col ch hq]

theorem count_reSub_quoteCol (col : Str) (hcol : col ≠ []) (ch : Char)
    (hq : ¬ (('"' : Char) = ch)) (s : Str) :
    ((reSub (quoteColM col) s : Str).count ch) = s.count ch := by
  apply count_reSub
  intro prev t rep' extra h
  unfold quoteColM at h
  split at h
  · cases hl : litCS col t with
    | none => rw [hl] at h; exact absurd h (by simp)
    | some rest =>
      simp only [hl] at h
      split at h
      · simp only [Option.some.injEq, Prod.mk.injEq] at h
        obtain ⟨h1, h2⟩ := h
        have ht := litCS_eq_append col t rest hl
        subst ht h1
        have hlp : col.length ≠ 0 := by
          intro hz; exact hcol (List.eq_nil_of_length_eq_zero hz)
        have hlen : extra + 1 = col.length := by
          rw [← h2]
          simp only [List.length_append]
          omega
        rw [hlen, List.take_left]
        exact count_quoted col ch hq
      · exact absurd h (by simp)
  · exact absurd h (by simp)

theorem count_foldl_reSub {β : Type} (f : β → Matcher) (l : List β) (ch : Char)
    (h : ∀ b ∈ l, ∀ s : Str, ((reSub (f b) s : Str).count ch) = s.count ch) :
    ∀ s : Str, ((l.foldl (fun acc b => reSub (f b) acc) s : Str).count ch) = s.count ch := by
  induction l with
  | nil => intro s; rfl
  | cons b bs ih =>
    intro s
    simp only [List.foldl_cons]
    rw [ih (fun x hx => h x (List.mem_cons_of_mem _ hx)), h b (List.mem_cons_self _ _)]

theorem count_unquoteSimple (ch : Char) (hq : ¬ (('"' : Char) = ch)) (s : Str) :
    ((unquoteSimple s : Str).count ch) = s.count ch := by
  unfold unquoteSimple
  exact count_foldl_reSub (fun col => litReplaceCSM ('"' :: (col ++ ['"'])) col)
    simple_columns ch (fun col _ t => count_reSub_unquote col ch hq t) s

theorem count_quoteSpecial (ch : Char) (hq : ¬ (('"' : Char) = ch)) (s : Str) :
    ((quoteSpecial s : Str).count ch) = s.count ch := by
  unfold quoteSpecial
  refine count_foldl_reSub quoteColM special_columns ch ?_ s
  intro col hcol t
  refine count_reSub_quoteCol col ?_ ch hq t
  simp only [special_columns, List.mem_cons, List.not_mem_nil, or_false] at hcol
  rcases hcol with h | h | h | h | h | h <;> subst h <;> decide

theorem rtc_count_open (s : Str) : ((removeTrailingClose s : Str).count '(') = s.count '(' := by
  unfold removeTrailingClose
  have hsplit : s.reverse.takeWhile isWsChar ++ s.reverse.dropWhile isWsChar = s.reverse :=
    List.takeWhile_append_dropWhile ..
  have htw : ((s.reverse.takeWhile isWsChar : Str).count '(') = 0 := by
    rw [List.count_eq_zero]
    intro hmem
    have := List.mem_takeWhile_imp hmem
    simp [isWsChar] at this
  cases hdw : s.reverse.dropWhile isWsChar with
  | nil => simp
  | cons c rest =>
    simp only [hdw]
    split
    · next hc =>
      have hc' : c = ')' := by simpa using hc
      have hs : ((s : Str).count '(') = ((s.reverse : Str).count '(') := (List.count_reverse ..).symm
      rw [hs, ← hsplit, hdw, List.count_append, htw, hc']
      simp [List.count_cons, List.count_reverse]
    · rfl

theorem rtc_count_close (s : Str) : s.count ')' ≤ ((removeTrailingClose s : Str).count ')') + 1 := by
  unfold removeTrailingClose
  have hsplit : s.reverse.takeWhile isWsChar ++ s.reverse.dropWhile isWsChar = s.reverse :=
    List.takeWhile_append_dropWhile ..
  have htw : ((s.reverse.takeWhile isWsChar : Str).count ')') = 0 := by
    rw [List.count_eq_zero]
    intro hmem
    have := List.mem_takeWhile_imp hmem
    simp [isWsChar] at this
  cases hdw : s.reverse.dropWhile isWsChar with
  | nil => simp only [hdw]; omega
  | cons c rest =>
    simp only [hdw]
    split
    · next hc =>
      have hc' : c = ')' := by simpa using hc
      have hs : ((s : Str).count ')') = ((s.reverse : Str).count ')') := (List.count_reverse ..).symm
      rw [hs, ← hsplit, hdw, List.count_append, htw, hc']
      simp [List.count_cons, List.count_reverse]
    · omega

theorem iterate_rtc_open : ∀ (k : Nat) (s : Str), ((removeTrailingClose^[k] s : Str).count '(') = s.count '(' := by
  intro k
  induction k with
  | zero => intro s; rfl
  | succ n ih =>
    intro s
    rw [Function.iterate_succ_apply, ih, rtc_count_open]

theorem iterate_rtc_close : ∀ (k : Nat) (s : Str), s.count ')' ≤ ((removeTrailingClose^[k] s : Str).count ')') + k := by
  intro k
  induction k with
  | zero => intro s; simp
  | succ n ih =>
    intro s
    rw [Function.iterate_succ_apply]
    have h1 := rtc_count_close s
    have h2 := ih (removeTrailingClose s)
    omega

theorem parenFix_le (s : Str) : ((parenFix s : Str).count '(') ≤ ((parenFix s : Str).count ')') := by
  unfold parenFix
  split
  · next hlt =>
    have h1 : ((List.replicate (s.count '(' - s.count ')') ')' : Str).count '(') = 0 := by
      rw [List.count_replicate, if_neg (by decide)]
    have h2 : ((List.replicate (s.count '(' - s.count ')') ')' : Str).count ')')
        = s.count '(' - s.count ')' := List.count_replicate_self ..
    rw [List.count_append, List.count_append, h1, h2]
    omega
  · split
    · next hlt =>
      have h1 := iterate_rtc_open (s.count ')' - s.count '(') s
      have h2 := iterate_rtc_close (s.count ')' - s.count '(') s
      omega
    · omega

/-- C3 amended: `validate_sql` itself does not check parenthesis balance (see
`validate_sql_accepts_unbalanced_parens`); what the code guarantees instead is
that the repair pass `_ensure_sqlite_compatibility` never emits more `(` than
`)` — missing closers are appended at the end, and the trim loop for surplus
closers only ever removes `)`. -/
theorem ensure_sqlite_compatibility_paren_le (sql : Str) :
    ((ensure_sqlite_compatibility sql : Str).count '(') ≤
      ((ensure_sqlite_compatibility sql : Str).count ')') := by
  unfold ensure_sqlite_compatibility
  split
  · next hemp =>
    have : sql = [] := by
      cases sql
      · rfl
      · simp [List.isEmpty] at hemp
    subst this
    simp
  · unfold ensurePost
    rw [count_quoteSpecial _ (by decide), count_unquoteSimple _ (by decide),
      count_quoteSpecial _ (by decide), count_unquoteSimple _ (by decide)]
    exact parenFix_le (ensurePre sql)

/-! ## `_extract_sql_from_response` and `generate_sql_query` (claim C7) -/

/-- Generic leftmost `re.search` that also returns parsed data. -/
def searchParse {α : Type} (p : Str → Option α) : Str → Option α
  | [] => p []
  | c :: cs =>
    match p (c :: cs) with
    | some v => some v
    | none => searchParse p cs

def fence : Str := "```".toList

def fenceSql : Str := "```sql".toList

/-- The lazy `(.*?)\s*```` part: the group grows minimally until whitespace
followed by a closing fence starts (the closing `\s*` is deterministic
because a fence starts with a non-whitespace backtick). -/
def lazyToWsFence (s : Str) : Option (Str × Str) :=
  match (ws0 s).bind (litCS fence) with
  | some r => some ([], r)
  | none =>
    match s with
    | [] => none
    | c :: cs => (lazyToWsFence cs).map (fun g => (c :: g.1, g.2))

/-- One position of ````sql\s*(.*?)\s*```` (re.DOTALL; the leading greedy
`\s*` is deterministic for the same reason).  Returns the group. -/
def fencedSqlP (s : Str) : Option Str :=
  match (litCS fenceSql s).bind ws0 with
  | some r => (lazyToWsFence r).map (fun g => g.1)
  | none => none

/-- One position of `` `(.*?)` `` (re.DOTALL): lazy group up to the next
backtick. -/
def backtickP (s : Str) : Option Str :=
  match chP '`' s with
  | some r =>
    let g := r.takeWhile (fun c => !(c == '`'))
    match chP '`' (r.drop g.length) with
    | some _ => some g
    | none => none
  | none => none

/-- One position of `(SELECT.*?;?)\s*$` (re.DOTALL | re.IGNORECASE): the lazy
group runs from SELECT to the end of the string minus trailing whitespace
(`$` also matches before a final newline, which that whitespace absorbs). -/
def selectToEndP (s : Str) : Option Str :=
  match litCI ("SELECT".toList) s with
  | some _ => some (s.take (s.length - (s.reverse.takeWhile isWsChar).length))
  | none => none

/-- `re.sub(r'^[^S]*?(SELECT)', r'\1', response, re.IGNORECASE | re.DOTALL)`:
anchored at the start, the lazy `[^S]*?` can only reach the first S/s, so the
sub fires iff the first S/s of the response starts `SELECT`; it then drops
the prefix. -/
def cleanPrefixSelect (s : Str) : Str :=
  match litCI ("SELECT".toList) (s.drop ((s.takeWhile (fun c => !(c == 'S' || c == 's'))).length)) with
  | some _ => s.drop ((s.takeWhile (fun c => !(c == 'S' || c == 's'))).length)
  | none => s

/-- `SQLQueryGenerator._extract_sql_from_response` (lines 451-473). -/
def extract_sql_from_response (response : Str) : Str :=
  if response.isEmpty then []
  else
    match searchParse fencedSqlP response with
    | some g => stripWs g
    | none =>
      match searchParse backtickP response with
      | some g => stripWs g
      | none =>
        match searchParse selectToEndP response with
        | some g => stripWs g
        | none => stripWs (cleanPrefixSelect response)

/-- `SQLQueryGenerator._is_close_games_query` (lines 475-479). -/
def is_close_games_query (user_query : Str) : Bool :=
  containsSub ("close".toList) (lowerStr user_query) &&
    containsSub ("games".toList) (lowerStr user_query) &&
    (containsSub ("Rice".toList) user_query || containsSub ("Jones".toList) user_query ||
      containsSub ("Kiki".toList) user_query || containsSub ("Londynn".toList) user_query)

/-- The template of `_generate_simple_close_games_query` (lines 486-501),
returned without stripping. -/
def closeGamesGenTemplateRaw : Str :=
  ("\n        SELECT \n          Name,\n          COUNT(*) as games_played,\n          ROUND(AVG(Pts), 1) as avg_pts,\n          ROUND(AVG(Ast), 1) as avg_ast,\n          ROUND(AVG(Reb), 1) as avg_reb,\n          ROUND(AVG(\"TO\"), 1) as avg_to,\n          ROUND(CAST(SUM(FGM) AS REAL) / NULLIF(SUM(FGA), 0) * 100, 1) as fg_pct,\n          ROUND(CAST(SUM(\"3PTM\") AS REAL) / NULLIF(SUM(\"3PTA\"), 0) * 100, 1) as three_pt_pct\n        FROM ucla_player_stats\n        WHERE Name IN ('Rice, Kiki', 'Jones, Londynn')\n          AND Name NOT IN ('Totals', 'TM', 'Team')\n        GROUP BY Name\n        ORDER BY avg_pts DESC\n        ").toList

/-- `generate_sql_query` (lines 67-104) with explicit fuel.  The language
model is the collaborator `llm : Nat → Option Str` giving the outcome of the
attempt with each retry count (`none` models a raised exception; the prompt
construction from the user query, schema and entities is folded into it).
The `retry_count < 2` guard bounds recursion depth at 3 frames from any
start, so fuel 3 makes this definition exact. -/
def generate_go (llm : Nat → Option Str) (uq : Str) : Nat → Nat → Option Str
  | 0, _ => none
  | fuel + 1, retry_count =>
    if is_close_games_query uq then some closeGamesGenTemplateRaw
    else
      match llm retry_count with
      | none => none
      | some out =>
        let sql := ensure_sqlite_compatibility (extract_sql_from_response out)
        if !(validate_sql sql).1 && decide (retry_count < 2) then
          generate_go llm uq fuel (retry_count + 1)
        else some sql

def generate_sql_query (llm : Nat → Option Str) (uq : Str) (retry_count : Nat) : Option Str :=
  generate_go llm uq 3 retry_count

/-! ## Claim C7: the EXTRACT(YEAR FROM game_date) repair -/

def extractYearFragment : Str := "EXTRACT(YEAR FROM game_date)".toList

def strftimeFragment : Str := "strftime('%Y', game_date)".toList

def c7Cex : Str :=
  "SELECT EXTRACT(YEAR FROM game_date) FROM ucla_player_stats GROUP BY AVG(Pts) -- opponent_strength".toList

set_option maxRecDepth 100000 in
set_option maxHeartbeats 4000000 in
/-- C7 counterexample: a raw model output containing the fragment
`EXTRACT(YEAR FROM game_date)` for which the repair pass does NOT rewrite it
to `strftime('%Y', game_date)`: the aggregate-in-GROUP-BY /
`opponent_strength` interception replaces the whole query with a fixed
template first, so the fragment is discarded, not rewritten. -/
theorem ensure_drops_extract_fragment :
    containsSub extractYearFragment c7Cex = true ∧
    ensure_sqlite_compatibility c7Cex = stripWs opponentTemplateRaw ∧
    containsSub strftimeFragment (stripWs opponentTemplateRaw) = false := by decide

def c7Raw : Str := "SELECT EXTRACT(YEAR FROM game_date), Pts FROM ucla_player_stats".toList

def c7Fixed : Str := "SELECT strftime('%Y', game_date), Pts FROM ucla_player_stats".toList

def c7UserQuery : Str := "points by season year".toList

set_option maxRecDepth 100000 in
set_option maxHeartbeats 4000000 in
/-- C7 amended: when no interception branch fires and the later structural
repairs have nothing to trim, the repair pass rewrites
`EXTRACT(YEAR FROM game_date)` to `strftime('%Y', game_date)` before the
query reaches validation — shown on the scenario's raw model output run
through `generate_sql_query` (repair happens inside generation, before
`validate_sql` accepts the result on the first attempt). -/
theorem generate_rewrites_extract_year :
    generate_sql_query (fun _ => some c7Raw) c7UserQuery 0 = some c7Fixed ∧
    containsSub extractYearFragment c7Raw = true ∧
    containsSub strftimeFragment c7Fixed = true ∧
    containsSub ("EXTRACT".toList) c7Fixed = false ∧
    (validate_sql c7Fixed).1 = true := by decide

/-! ## `DatabaseConnector` (claims C4 and C8)

The SQLite cursor is the collaborator `store : Str → Except String (List Row)`
(`.error` models a raised `sqlite3.Error`/`Exception`; the two Python `except`
arms differ only in the message prefix and are collapsed into one).  Wall-clock
time is idealised as a rational `elapsed` parameter.  Each function also
returns the list of statements actually sent to the store, so that
"no statement is run" is expressible. -/

abbrev Row := List String

/-- `query_stats` of `DatabaseConnector.__init__` (db_connector line 19). -/
structure QueryStats where
  total_queries : Nat
  failed_queries : Nat
  avg_execution_time : ℚ
deriving DecidableEq

/-- `--` reachable by `.*` without crossing a newline. -/
def dashDashInLine : Str → Bool
  | [] => false
  | c :: cs =>
    (litCS ("--".toList) (c :: cs)).isSome || (!(c == '\n') && dashDashInLine cs)

/-- `*/` reachable by `.*` without crossing a newline. -/
def starSlashInLine : Str → Bool
  | [] => false
  | c :: cs =>
    (litCS ("*/".toList) (c :: cs)).isSome || (!(c == '\n') && starSlashInLine cs)

/-- `;\s*(DROP|DELETE|UPDATE|INSERT|CREATE|ALTER)\s+` at one position
(db_connector line 149, re.IGNORECASE). -/
def stackedStmtAt (_prev : Option Char) (s : Str) : Bool :=
  match (chP ';' s).bind ws0 with
  | some r =>
    let kw : Str → Bool := fun k =>
      match litCI k r with
      | some r2 => (ws1 r2).isSome
      | none => false
    kw ("DROP".toList) || kw ("DELETE".toList) || kw ("UPDATE".toList) ||
      kw ("INSERT".toList) || kw ("CREATE".toList) || kw ("ALTER".toList)
  | none => false

/-- `UNION\s+SELECT.*--` at one position (line 150, re.IGNORECASE; without
re.DOTALL the `.*` cannot cross a newline). -/
def unionInjAt (_prev : Option Char) (s : Str) : Bool :=
  match ((litCI ("UNION".toList) s).bind ws1).bind (litCI ("SELECT".toList)) with
  | some r => dashDashInLine r
  | none => false

/-- `\/\*.*\*\/` at one position (line 151). -/
def commentInjAt (_prev : Option Char) (s : Str) : Bool :=
  match litCS ("/*".toList) s with
  | some r => starSlashInLine r
  | none => false

/-- The `dangerous_patterns` screen of `_validate_query_precheck`
(lines 148-156), all three patterns sharing one message. -/
def dangerousPatterns (q : Str) : Bool :=
  searchOcc stackedStmtAt q || searchOcc unionInjAt q || searchOcc commentInjAt q

/-- `DatabaseConnector._validate_query_precheck` (lines 142-170): empty check,
dangerous-pattern screen, SELECT requirement, then SQLite's own
`EXPLAIN <query>` dry run through the cursor. -/
def validate_query_precheck (store : Str → Except String (List Row)) (q : Str) :
    Option String × List Str :=
  if (stripWs q).isEmpty then (some "Empty query", [])
  else if dangerousPatterns q then (some "Potentially dangerous SQL pattern detected", [])
  else if !(tokenSearchCI ("SELECT".toList) q) then
    (some "Query must contain SELECT statement", [])
  else
    match store (("EXPLAIN ".toList) ++ q) with
    | .ok _ => (none, [("EXPLAIN ".toList) ++ q])
    | .error e => (some ("SQLite syntax error: " ++ e), [("EXPLAIN ".toList) ++ q])

/-- `_update_query_stats` (lines 172-176): running mean over the
already-incremented total counter. -/
def update_query_stats (stats : QueryStats) (execution_time : ℚ) : QueryStats :=
  { stats with avg_execution_time :=
      (stats.avg_execution_time * ((stats.total_queries : ℚ) - 1) + execution_time)
        / (stats.total_queries : ℚ) }

/-- The execution part of `execute_query` (lines 66-101), after optional
validation. -/
def execute_run (store : Str → Except String (List Row)) (elapsed : ℚ)
    (stats1 : QueryStats) (q : Str) (return_error : Bool) (tr : List Str) :
    (Option (List Row) × Option String) × QueryStats × List Str :=
  match store q with
  | .ok rows => ((some rows, none), update_query_stats stats1 elapsed, tr ++ [q])
  | .error e =>
    ((none, if return_error then some ("SQLite error: " ++ e) else none),
      { stats1 with failed_queries := stats1.failed_queries + 1 }, tr ++ [q])

/-- `DatabaseConnector.execute_query` (lines 47-101).  The total-query
counter is incremented at entry; with `return_error = false` Python returns
the bare rows or `None`, modelled as the same pair with the error component
`none`.  The lazy `connect()` is connection plumbing outside this model. -/
def execute_query (store : Str → Except String (List Row)) (elapsed : ℚ)
    (stats : QueryStats) (q : Str) (return_error : Bool) (validate_first : Bool) :
    (Option (List Row) × Option String) × QueryStats × List Str :=
  let stats1 := { stats with total_queries := stats.total_queries + 1 }
  if validate_first then
    match validate_query_precheck store q with
    | (some err, tr) =>
      ((none, if return_error then some ("Validation error: " ++ err) else none),
        { stats1 with failed_queries := stats1.failed_queries + 1 }, tr)
    | (none, tr) => execute_run store elapsed stats1 q return_error tr
  else execute_run store elapsed stats1 q return_error []

theorem validate_query_precheck_rejects (store : Str → Except String (List Row)) (q : Str)
    (h : dangerousPatterns q = true ∨ tokenSearchCI ("SELECT".toList) q = false) :
    ∃ msg, validate_query_precheck store q = (some msg, []) := by
  unfold validate_query_precheck
  by_cases h1 : (stripWs q).isEmpty
  · rw [if_pos h1]; exact ⟨_, rfl⟩
  · rw [if_neg h1]
    by_cases h2 : dangerousPatterns q = true
    · rw [if_pos h2]; exact ⟨_, rfl⟩
    · have h3 : tokenSearchCI ("SELECT".toList) q = false := by
        rcases h with h | h
        · exact absurd h h2
        · exact h
      rw [if_neg h2, h3]
      exact ⟨_, rfl⟩

/-- C4: with `validate_first = true`, a query matching one of the
destructive/injection patterns, or lacking a SELECT keyword, is rejected
before any statement reaches the store (empty store trace), no rows are
returned, and with `return_error = true` the caller gets `(None, error)`. -/
theorem execute_query_rejects_destructive (store : Str → Except String (List Row))
    (elapsed : ℚ) (stats : QueryStats) (q : Str) (return_error : Bool)
    (h : dangerousPatterns q = true ∨ tokenSearchCI ("SELECT".toList) q = false) :
    (execute_query store elapsed stats q return_error true).1.1 = none ∧
    (execute_query store elapsed stats q return_error true).2.2 = [] ∧
    (return_error = true →
      ∃ msg, (execute_query store elapsed stats q return_error true).1.2 = some msg) := by
  obtain ⟨msg, hv⟩ := validate_query_precheck_rejects store q h
  simp only [execute_query, if_true, hv]
  refine ⟨?_, ?_, fun hre => ?_⟩
  · trivial
  · trivial
  · rw [hre]
    exact ⟨_, by trivial⟩

def c4Store : Str → Except String (List Row) := fun _ => .ok []

def c4Witness : Str := "SELECT 1; DROP TABLE ucla_player_stats".toList

/-- C4 witness: a stacked-statement injection attempt, instantiating
`execute_query_rejects_destructive`. -/
theorem execute_query_rejects_destructive_witness :
    (dangerousPatterns c4Witness = true ∨
      tokenSearchCI ("SELECT".toList) c4Witness = false) ∧
    ((execute_query c4Store 1 ⟨0, 0, 0⟩ c4Witness true true).1.1 = none ∧
      (execute_query c4Store 1 ⟨0, 0, 0⟩ c4Witness true true).2.2 = [] ∧
      (true = true →
        ∃ msg, (execute_query c4Store 1 ⟨0, 0, 0⟩ c4Witness true true).1.2 = some msg)) :=
  ⟨Or.inl (by decide),
    execute_query_rejects_destructive c4Store 1 ⟨0, 0, 0⟩ c4Witness true (Or.inl (by decide))⟩

/-- C8: a call whose validation passes (or is skipped) and whose execution
succeeds returns the full row set with no error, increments the total-query
counter, leaves the failure counter alone, and updates the running mean by
`new_avg = (old_avg * (n - 1) + elapsed) / n` with `n` the new total count. -/
theorem execute_query_success_stats (store : Str → Except String (List Row))
    (elapsed : ℚ) (stats : QueryStats) (q : Str) (re vf : Bool) (rows : List Row)
    (hv : vf = true → (validate_query_precheck store q).1 = none)
    (hr : store q = .ok rows) :
    (execute_query store elapsed stats q re vf).1 = (some rows, none) ∧
    (execute_query store elapsed stats q re vf).2.1.total_queries = stats.total_queries + 1 ∧
    (execute_query store elapsed stats q re vf).2.1.failed_queries = stats.failed_queries ∧
    (execute_query store elapsed stats q re vf).2.1.avg_execution_time =
      (stats.avg_execution_time * (((stats.total_queries + 1 : Nat) : ℚ) - 1) + elapsed)
        / ((stats.total_queries + 1 : Nat) : ℚ) := by
  cases vf with
  | false =>
    simp only [execute_query, Bool.false_eq_true, if_false, execute_run, hr,
      update_query_stats]
    refine ⟨?_, ?_, ?_, ?_⟩ <;> trivial
  | true =>
    have hv' := hv rfl
    rcases hveq : validate_query_precheck store q with ⟨e, tr⟩
    rw [hveq] at hv'
    simp only at hv'
    subst hv'
    simp only [execute_query, if_true, hveq, execute_run, hr, update_query_stats]
    refine ⟨?_, ?_, ?_, ?_⟩ <;> trivial

def c8Store : Str → Except String (List Row) := fun _ => .ok [["5"]]

def c8Query : Str := "SELECT Pts FROM ucla_player_stats".toList

/-- C8 witness: a concrete successful execution, instantiating
`execute_query_success_stats`. -/
theorem execute_query_success_stats_witness :
    (true = true → (validate_query_precheck c8Store c8Query).1 = none) ∧
    c8Store c8Query = .ok [["5"]] ∧
    ((execute_query c8Store 2 ⟨4, 1, 3⟩ c8Query true true).1 = (some [["5"]], none) ∧
      (execute_query c8Store 2 ⟨4, 1, 3⟩ c8Query true true).2.1.total_queries = 4 + 1 ∧
      (execute_query c8Store 2 ⟨4, 1, 3⟩ c8Query true true).2.1.failed_queries = 1 ∧
      (execute_query c8Store 2 ⟨4, 1, 3⟩ c8Query true true).2.1.avg_execution_time =
        ((3 : ℚ) * (((4 + 1 : Nat) : ℚ) - 1) + 2) / ((4 + 1 : Nat) : ℚ)) :=
  ⟨fun _ => by decide, rfl,
    execute_query_success_stats c8Store 2 ⟨4, 1, 3⟩ c8Query true true [["5"]]
      (fun _ => by decide) rfl⟩

/-! ## `EntityExtractor` (claims C2, C6, C10)

The fuzzy scorer of `thefuzz` is the collaborator
`scorer : Str → Str → Nat` (0-100 scale); `json.loads` is the collaborator
`parseJson`; the resolution cache is an association list threaded
explicitly.  Database values (player names, numbers, opponents) are the
string lists `_load_common_entities` reads once. -/

/-- A Python value held under `player_names`.  `json.loads` only guarantees
a JSON value, so besides a string (which `_resolve_entities` wraps into a
one-element list) and a list, the key can hold a value that is neither a
string nor iterable — an int, float or bool — carried here as
`nonIterable` with its Python truthiness (e.g. `5` vs `0`).  Iterable
non-list values (a dict iterates its string keys) are representable as
`list`. -/
inductive NamesVal where
  | str (s : Str)
  | list (l : List Str)
  | nonIterable (truthy : Bool)
deriving DecidableEq

/-- Python truthiness of such a value. -/
def NamesVal.truthy : NamesVal → Bool
  | .str s => !s.isEmpty
  | .list l => !l.isEmpty
  | .nonIterable t => t

/-- The `isinstance(..., str)` wrap of `_resolve_entities` (lines 152-154).
On a truthy `nonIterable` value the source never reaches a name list — the
`for name in player_names` header raises TypeError first (see
`resolve_raises`); the `[]` clause only keeps this function total. -/
def NamesVal.toNameList : NamesVal → List Str
  | .str s => [s]
  | .list l => l
  | .nonIterable _ => []

/-- The entity record as parsed from the model's JSON or built by the
pattern fallback.  `none` covers both a missing key and an explicit null
(the code treats them alike).  `player_name` (singular) is what the pattern
fallback fills; `_resolve_entities` never reads it. -/
structure RawEntities where
  player_names : Option NamesVal := none
  player_name : Option Str := none
  player_number : Option Str := none
  opponent : Option Str := none
  statistic : Option Str := none
  comparison : Option Str := none
  value : Option Str := none
  exclude_totals : Option Bool := none
  is_comparison_query : Option Bool := none
deriving DecidableEq

/-- The resolved intent record built by `_resolve_entities`; `none` models
an absent key. -/
structure ResolvedEntities where
  player_names : Option (List Str) := none
  player_number : Option Str := none
  opponent : Option Str := none
  statistic : Option Str := none
  comparison : Option Str := none
  value : Option Str := none
  exclude_totals : Option Bool := none
  is_comparison_query : Option Bool := none
deriving DecidableEq

/-- `entity_cache` (line 20), as an association list; a fresh entry shadows
an older one by being consed in front. -/
abbrev EntityCache := List (Str × Str)

def cacheLookup (key : Str) : EntityCache → Option Str
  | [] => none
  | (k, v) :: rest => if k == key then some v else cacheLookup key rest

/-- `','.join(str(opt) for opt in ...)`. -/
def joinComma : List Str → Str
  | [] => []
  | [x] => x
  | x :: xs => x ++ ',' :: joinComma xs

/-- `thefuzz.process.extractOne`: the option with the highest score, first
on ties. -/
def extractOne (scorer : Str → Str → Nat) (q : Str) : List Str → Option (Str × Nat)
  | [] => none
  | o :: os =>
    some (os.foldl (fun best o2 =>
      if scorer q o2 > best.2 then (o2, scorer q o2) else best) (o, scorer q o))

/-- `EntityExtractor._fuzzy_match` (entity_extractor lines 185-213), with
its default threshold 75 passed explicitly.  The cache key concatenates the
raw text with only the first FIVE options (line 197).  A hit is returned
regardless of score; a miss below the threshold inserts nothing. -/
def fuzzy_match (scorer : Str → Str → Nat) (cache : EntityCache) (q : Str)
    (options : List Str) (threshold : Nat) : Option Str × EntityCache :=
  if q.isEmpty || options.isEmpty then (none, cache)
  else
    match cacheLookup (q ++ ':' :: joinComma (options.take 5)) cache with
    | some v => (some v, cache)
    | none =>
      match extractOne scorer q options with
      | some pr =>
        if threshold ≤ pr.2 then
          (some pr.1, (q ++ ':' :: joinComma (options.take 5), pr.1) :: cache)
        else (none, cache)
      | none => (none, cache)

/-- The player-name resolution loop of `_resolve_entities` (lines 157-161),
threading the cache. -/
def resolve_names_fold (scorer : Str → Str → Nat) (players : List Str) :
    List Str → List Str × EntityCache → List Str × EntityCache
  | [], acc => acc
  | name :: rest, acc =>
    match fuzzy_match scorer acc.2 name players 75 with
    | (some m, c2) => resolve_names_fold scorer players rest (acc.1 ++ [m], c2)
    | (none, c2) => resolve_names_fold scorer players rest (acc.1, c2)

/-- `EntityExtractor._resolve_entities` (lines 145-183): resolve player
names, player number and opponent by fuzzy matching (threshold 75), dropping
what does not resolve; copy the present scalar fields unchanged.  This gives
the behaviour on every non-raising input; the one raising input — a truthy
non-iterable `player_names`, where the `for name in player_names` header
(line 158) raises TypeError before any cache write or resolution step — is
the predicate `resolve_raises`, checked at this function's unique call site
in `extract_entities`, where the propagating exception is observable. -/
def resolve_entities (scorer : Str → Str → Nat) (cache : EntityCache)
    (players player_numbers opponents : List Str) (entities : RawEntities) :
    ResolvedEntities × EntityCache :=
  let s1 : Option (List Str) × EntityCache :=
    match entities.player_names with
    | some nv =>
      if nv.truthy then
        let fold := resolve_names_fold scorer players nv.toNameList ([], cache)
        ((if fold.1.isEmpty then none else some fold.1), fold.2)
      else (none, cache)
    | none => (none, cache)
  let s2 : Option Str × EntityCache :=
    match entities.player_number with
    | some n =>
      if !n.isEmpty then fuzzy_match scorer s1.2 n player_numbers 75 else (none, s1.2)
    | none => (none, s1.2)
  let s3 : Option Str × EntityCache :=
    match entities.opponent with
    | some o =>
      if !o.isEmpty then fuzzy_match scorer s2.2 o opponents 75 else (none, s2.2)
    | none => (none, s2.2)
  ({ player_names := s1.1, player_number := s2.1, opponent := s3.1,
      statistic := entities.statistic, comparison := entities.comparison,
      value := entities.value, exclude_totals := entities.exclude_totals,
      is_comparison_query := entities.is_comparison_query }, s3.2)

/-- One position of the jersey-number alternation
`#(\d+)|No\. (\d+)|number (\d+)` (line 93, re.IGNORECASE), alternatives in
pattern order; the result is the first non-None group, i.e. the digits. -/
def numberPatAt (s : Str) : Option Str :=
  let digitsGroup : Str → Option Str := fun r =>
    if (r.takeWhile Char.isDigit).isEmpty then none else some (r.takeWhile Char.isDigit)
  match chP '#' s with
  | some r => digitsGroup r
  | none =>
    match (litCI ("No.".toList) s).bind (chP ' ') with
    | some r => digitsGroup r
    | none =>
      match (litCI ("number".toList) s).bind (chP ' ') with
      | some r => digitsGroup r
      | none => none

/-- Generic leftmost `re.search` with the previous character available. -/
def searchParseB {α : Type} (p : Option Char → Str → Option α) : Option Char → Str → Option α
  | prev, [] => p prev []
  | prev, c :: cs =>
    match p prev (c :: cs) with
    | some v => some v
    | none => searchParseB p (some c) cs

/-- `stat_keywords` (lines 119-120), in source order. -/
def stat_keywords : List Str := [
  "points".toList, "rebounds".toList, "assists".toList, "steals".toList,
  "blocks".toList, "turnovers".toList, "pts".toList, "reb".toList, "ast".toList,
  "stl".toList, "blk".toList, "to".toList, "field goals".toList,
  "three pointers".toList, "free throws".toList]

/-- `stat_mapping` (lines 124-127). -/
def stat_mapping : List (Str × Str) := [
  ("pts".toList, "points".toList), ("reb".toList, "rebounds".toList),
  ("ast".toList, "assists".toList), ("stl".toList, "steals".toList),
  ("blk".toList, "blocks".toList), ("to".toList, "turnovers".toList)]

def mapStat (s : Str) : Str :=
  match stat_mapping.find? (fun p => p.1 == s) with
  | some p => p.2
  | none => s

/-- One position of
`(more than|less than|at least|at most|equal to|>|<|>=|<=|=)` (line 132, no
flags, searched on the original query): alternatives in order — note `>`
and `<` shadow `>=` and `<=`. -/
def comparisonPatAt (s : Str) : Option Str :=
  if (litCS ("more than".toList) s).isSome then some ("more than".toList)
  else if (litCS ("less than".toList) s).isSome then some ("less than".toList)
  else if (litCS ("at least".toList) s).isSome then some ("at least".toList)
  else if (litCS ("at most".toList) s).isSome then some ("at most".toList)
  else if (litCS ("equal to".toList) s).isSome then some ("equal to".toList)
  else if (chP '>' s).isSome then some ['>']
  else if (chP '<' s).isSome then some ['<']
  else if (litCS (">=".toList) s).isSome then some (">=".toList)
  else if (litCS ("<=".toList) s).isSome then some ("<=".toList)
  else if (chP '=' s).isSome then some ['=']
  else none

/-- One position of `\b(\d+)\b` (line 138). -/
def valuePatAt (prev : Option Char) (s : Str) : Option Str :=
  if boundaryBefore prev then
    if (s.takeWhile Char.isDigit).isEmpty then none
    else
      match s.drop (s.takeWhile Char.isDigit).length with
      | [] => some (s.takeWhile Char.isDigit)
      | c :: _ => if isWordChar c then none else some (s.takeWhile Char.isDigit)
  else none

/-- `EntityExtractor._pattern_extract_entities` (lines 80-143) for the
"ucla" dataset (the constructor pins `dataset_type = "ucla"`, so the other
branch is unreachable and not modelled). -/
def pattern_extract_entities (query : Str) : RawEntities :=
  let e1 : RawEntities :=
    match searchParse numberPatAt query with
    | some ds => { player_number := some ds }
    | none => {}
  let e2 :=
    match stat_keywords.find? (fun kw => containsSub kw (lowerStr query)) with
    | some kw => { e1 with statistic := some (mapStat kw) }
    | none => e1
  let e3 :=
    match searchParse comparisonPatAt query with
    | some c => { e2 with comparison := some c }
    | none => e2
  match searchParseB valuePatAt none query with
  | some v => { e3 with value := some v }
  | none => e3

/-- `re.search(r'({.*})', result, re.DOTALL)` (line 65): with the greedy
dot-all `.*`, the group runs from the first opening brace to the last
closing brace after it. -/
def findJsonObject (s : Str) : Option Str :=
  match s.drop ((s.takeWhile (fun c => !(c == '\x7b'))).length) with
  | [] => none
  | c :: rest =>
    if ((rest.reverse.takeWhile (fun d => !(d == '\x7d'))).length) = rest.length then none
    else some (c :: rest.take (rest.length - (rest.reverse.takeWhile (fun d => !(d == '\x7d'))).length))

/-- The TypeError path of `_resolve_entities`: `player_names` present and
truthy but neither a string nor iterable, so the loop header
`for name in player_names` (line 158) raises.  The raise happens before the
loop body, hence before any fuzzy match or cache write. -/
def resolve_raises (entities : RawEntities) : Bool :=
  match entities.player_names with
  | some (.nonIterable t) => t
  | _ => false

/-- The entity record `extract_entities` hands to `_resolve_entities`
(lines 62-75): the parsed JSON object when the regex finds one and
`json.loads` succeeds, otherwise the pattern fallback. -/
def parsed_entities (parseJson : Str → Option RawEntities) (result query : Str) :
    RawEntities :=
  match findJsonObject result with
  | some js =>
    match parseJson js with
    | some e => e
    | none => pattern_extract_entities query
  | none => pattern_extract_entities query

/-- `EntityExtractor.extract_entities` (lines 39-78).  The text-generation
call is `gen : Except String Str` (`.error` models the ValueError that
`LLMManager.generate_text` raises when the model is not initialised,
llm_utils lines 72-80); `parseJson` models `json.loads`, with `none` for a
parse failure.  The LLM call stands OUTSIDE the try/except — that block
guards only the JSON handling — so a generation error propagates, and any
parse problem falls back to `_pattern_extract_entities`.  The call to
`_resolve_entities` (line 78) is ALSO outside the try/except: on an
ill-typed `player_names` value it raises TypeError (see `resolve_raises`),
which propagates too; otherwise resolution completes. -/
def extract_entities (gen : Except String Str) (parseJson : Str → Option RawEntities)
    (scorer : Str → Str → Nat) (cache : EntityCache)
    (players player_numbers opponents : List Str) (query : Str) :
    Except String (ResolvedEntities × EntityCache) := do
  let result ← gen
  let entities := parsed_entities parseJson result query
  if resolve_raises entities then
    .error "TypeError: player_names object is not iterable"
  else
    return resolve_entities scorer cache players player_numbers opponents entities

/-- C2 counterexample: when the text-generation call raises — as it does for
a missing ANTHROPIC_API_KEY — `extract_entities` propagates the exception to
its caller instead of returning an intent record with absent fields. -/
theorem extract_entities_propagates_llm_error :
    extract_entities
      (.error "LLM not initialized: ANTHROPIC_API_KEY environment variable not set")
      (fun _ => none) (fun _ _ => 0) [] [] [] [] ("average points".toList) =
    .error "LLM not initialized: ANTHROPIC_API_KEY environment variable not set" := rfl

/-- Companion fact (not total resolution): even a successful generation can
make `extract_entities` raise, when `json.loads` yields an object whose
`player_names` is a truthy non-iterable (here the model output
`{"player_names": 5}`): the TypeError from `_resolve_entities` propagates. -/
theorem extract_entities_propagates_type_error :
    extract_entities (.ok ("\x7b\"player_names\": 5\x7d".toList))
      (fun _ => some { player_names := some (.nonIterable true) })
      (fun _ _ => 0) [] [] [] [] ("points".toList) =
    .error "TypeError: player_names object is not iterable" := rfl

/-- C2 amended: `extract_entities` returns an intent record whenever the
text-generation call itself returns AND the parsed record is well typed
(no truthy non-iterable `player_names`): a JSON-parse failure, or no JSON
object in the response, falls back to the pattern extractor, and resolution
of a well-typed record is total.  What escapes is an exception from the
generation call or the TypeError from resolving an ill-typed value — both
caught by the orchestrator, not here. -/
theorem extract_entities_ok_of_gen_ok (t : Str) (parseJson : Str → Option RawEntities)
    (scorer : Str → Str → Nat) (cache : EntityCache)
    (players player_numbers opponents : List Str) (query : Str)
    (hwt : resolve_raises (parsed_entities parseJson t query) = false) :
    ∃ r, extract_entities (.ok t) parseJson scorer cache players player_numbers
      opponents query = .ok r := by
  refine ⟨resolve_entities scorer cache players player_numbers opponents
    (parsed_entities parseJson t query), ?_⟩
  show (if resolve_raises (parsed_entities parseJson t query) then
      (.error "TypeError: player_names object is not iterable" :
        Except String (ResolvedEntities × EntityCache))
    else pure (resolve_entities scorer cache players player_numbers opponents
      (parsed_entities parseJson t query))) =
    .ok (resolve_entities scorer cache players player_numbers opponents
      (parsed_entities parseJson t query))
  rw [hwt]
  rfl

/-- C2 amended witness: a response with no JSON object, so the pattern
fallback applies (well typed by construction), instantiating
`extract_entities_ok_of_gen_ok`. -/
theorem extract_entities_ok_of_gen_ok_witness :
    resolve_raises
      (parsed_entities (fun _ => none) ("no json here".toList) ("average points".toList)) =
      false ∧
    ∃ r, extract_entities (.ok ("no json here".toList)) (fun _ => none) (fun _ _ => 0)
      [] [] [] [] ("average points".toList) = .ok r :=
  ⟨by decide,
    extract_entities_ok_of_gen_ok ("no json here".toList) (fun _ => none) (fun _ _ => 0)
      [] [] [] [] ("average points".toList) (by decide)⟩

/-! ## Claims C6 and C10: fuzzy-match resolution -/

theorem foldl_best_cases (scorer : Str → Str → Nat) (q : Str) :
    ∀ (l : List Str) (b : Str × Nat),
      (l.foldl (fun best o2 => if scorer q o2 > best.2 then (o2, scorer q o2) else best) b) = b ∨
      ∃ o ∈ l,
        (l.foldl (fun best o2 => if scorer q o2 > best.2 then (o2, scorer q o2) else best) b) =
          (o, scorer q o) := by
  intro l
  induction l with
  | nil => intro b; left; rfl
  | cons o os ih =>
    intro b
    simp only [List.foldl_cons]
    by_cases hgt : scorer q o > b.2
    · rw [if_pos hgt]
      rcases ih (o, scorer q o) with h | ⟨o2, ho2, h⟩
      · right; exact ⟨o, List.mem_cons_self _ _, h⟩
      · right; exact ⟨o2, List.mem_cons_of_mem _ ho2, h⟩
    · rw [if_neg hgt]
      rcases ih b with h | ⟨o2, ho2, h⟩
      · left; exact h
      · right; exact ⟨o2, List.mem_cons_of_mem _ ho2, h⟩

theorem extractOne_spec (scorer : Str → Str → Nat) (q : Str) (options : List Str)
    (m : Str) (sc : Nat) (h : extractOne scorer q options = some (m, sc)) :
    m ∈ options ∧ sc = scorer q m := by
  cases options with
  | nil => exact absurd h (by simp [extractOne])
  | cons o os =>
    simp only [extractOne, Option.some.injEq] at h
    rcases foldl_best_cases scorer q os (o, scorer q o) with hf | ⟨o2, ho2, hf⟩
    · rw [hf] at h
      obtain ⟨h1, h2⟩ := Prod.mk.injEq .. ▸ h.symm
      subst h1
      exact ⟨List.mem_cons_self _ _, h2⟩
    · rw [hf] at h
      obtain ⟨h1, h2⟩ := Prod.mk.injEq .. ▸ h.symm
      subst h1
      exact ⟨List.mem_cons_of_mem _ ho2, h2⟩

theorem fuzzy_match_below_threshold (scorer : Str → Str → Nat) (q : Str)
    (options : List Str) (cache : EntityCache)
    (hkey : cacheLookup (q ++ ':' :: joinComma (options.take 5)) cache = none)
    (hsc : ∀ o ∈ options, scorer q o < 75) :
    fuzzy_match scorer cache q options 75 = (none, cache) := by
  unfold fuzzy_match
  split
  · rfl
  · cases he : extractOne scorer q options with
    | none => simp only [hkey, he]
    | some pr =>
      obtain ⟨hm, hs⟩ := extractOne_spec scorer q options pr.1 pr.2 (by rw [he])
      have hlt : ¬ (75 ≤ pr.2) := by
        rw [hs]
        exact Nat.not_le.mpr (hsc pr.1 hm)
      simp only [hkey, he, if_neg hlt]

theorem resolve_names_fold_all_miss (scorer : Str → Str → Nat) (players : List Str) :
    ∀ (names : List Str) (acc1 : List Str),
      (∀ n ∈ names, ∀ p ∈ players, scorer n p < 75) →
      resolve_names_fold scorer players names (acc1, ([] : EntityCache)) = (acc1, []) := by
  intro names
  induction names with
  | nil => intro acc1 _; rfl
  | cons n ns ih =>
    intro acc1 h
    have hmiss : fuzzy_match scorer [] n players 75 = (none, []) :=
      fuzzy_match_below_threshold scorer n players [] rfl
        (fun p hp => h n (List.mem_cons_self _ _) p hp)
    simp only [resolve_names_fold, hmiss]
    exact ih acc1 (fun m hm p hp => h m (List.mem_cons_of_mem _ hm) p hp)

/-- C6: with a fresh cache, when every raw player-name candidate scores
below the similarity floor 75 against every known player name, the resolved
intent omits `player_names` entirely (the field is absent, never a guessed
nearest name). -/
theorem resolve_entities_omits_unmatched_players (scorer : Str → Str → Nat)
    (players player_numbers opponents : List Str) (entities : RawEntities)
    (nv : NamesVal) (hpn : entities.player_names = some nv)
    (hsc : ∀ n ∈ nv.toNameList, ∀ p ∈ players, scorer n p < 75) :
    (resolve_entities scorer [] players player_numbers opponents entities).1.player_names =
      none := by
  unfold resolve_entities
  rw [hpn]
  by_cases ht : nv.truthy = true
  · simp only [ht, if_true, resolve_names_fold_all_miss scorer players nv.toNameList [] hsc]
    rfl
  · simp only [Bool.not_eq_true] at ht
    simp only [ht, Bool.false_eq_true, if_false]

def c6Scorer : Str → Str → Nat := fun a b => if a == b then 100 else 50

def c6Players : List Str := ["Rice, Kiki".toList]

def c6Entities : RawEntities := { player_names := some (.list ["Unknown Person".toList]) }

/-- C6 witness: the intent `player_names = ["Unknown Person"]` against the
known roster, all scores below 75, instantiating
`resolve_entities_omits_unmatched_players`. -/
theorem resolve_entities_omits_unmatched_players_witness :
    c6Entities.player_names = some (NamesVal.list ["Unknown Person".toList]) ∧
    (∀ n ∈ (NamesVal.list ["Unknown Person".toList]).toNameList,
      ∀ p ∈ c6Players, c6Scorer n p < 75) ∧
    (resolve_entities c6Scorer [] c6Players [] [] c6Entities).1.player_names = none :=
  ⟨rfl, by decide,
    resolve_entities_omits_unmatched_players c6Scorer c6Players [] [] c6Entities _ rfl
      (by decide)⟩

def c10Scorer : Str → Str → Nat := fun _ o =>
  if o == ("Xavier".toList) then 90 else if o == ("Zoe".toList) then 95 else 10

def c10Query : Str := "player".toList

def c10Shared : List Str :=
  ["A".toList, "B".toList, "C".toList, "D".toList, "E".toList]

def c10Options1 : List Str := c10Shared ++ ["Xavier".toList]

def c10Options2 : List Str := c10Shared ++ ["Zoe".toList]

/-- C10: `_fuzzy_match` builds its cache key from the raw text and only the
first five options, so two calls with the same text and option sets sharing
those five elements collide: the second call returns the match cached for
the first set (Xavier) although its own best match is a different option
(Zoe, score 95 ≥ 75). -/
theorem fuzzy_match_cache_key_collision :
    (fuzzy_match c10Scorer [] c10Query c10Options1 75).1 = some ("Xavier".toList) ∧
    (fuzzy_match c10Scorer (fuzzy_match c10Scorer [] c10Query c10Options1 75).2
        c10Query c10Options2 75).1 = some ("Xavier".toList) ∧
    extractOne c10Scorer c10Query c10Options2 = some ("Zoe".toList, 95) ∧
    ¬ (("Xavier".toList : Str) = ("Zoe".toList)) := by decide

/-! ## `RAGPipeline` (claims C5 and C9)

Collaborators: `gen` is the query generator (`generate_sql_query`), `exec`
the connector's `execute_query(..., return_error=True)` reduced to its
(rows, error) outcome, `respond` the response synthesis
`_generate_response` (a model call with a deterministic fallback — never a
failure point), `extractRes` the outcome of `extract_entities` whose raised
errors the orchestrator's outer try/except absorbs. -/

/-- The result record of `process_query` and its helpers: `none` models an
absent key (the Python dicts carry different key sets per outcome). -/
structure PipeResult where
  user_query : Str
  extracted_entities : Option ResolvedEntities := none
  sql_query : Option Str := none
  query_results : Option (List Row) := none
  response : Str
  success : Bool
  error : Option String := none
  empty_results : Option Bool := none
  fallback_used : Option Bool := none
  original_error : Option String := none
deriving DecidableEq

/-- Python truthiness of the entities dict: some field is present. -/
def ResolvedEntities.truthy (e : ResolvedEntities) : Bool :=
  e.player_names.isSome || e.player_number.isSome || e.opponent.isSome ||
    e.statistic.isSome || e.comparison.isSome || e.value.isSome ||
    e.exclude_totals.isSome || e.is_comparison_query.isSome

/-- `"', '".join(names)`. -/
def joinQuoteComma : List Str → Str
  | [] => []
  | [x] => x
  | x :: xs => x ++ "', '".toList ++ joinQuoteComma xs

/-- The `player_filter` prologue shared by the simplified-aggregation
branches (rag_pipeline lines 176-184).  In the pipeline the entities are
always the resolved record, whose `player_names` is a list, so the
`isinstance(..., str)` arm is unreachable. -/
def player_filter_of (entities : ResolvedEntities) : Str :=
  if entities.truthy then
    match entities.player_names with
    | some names =>
      if !names.isEmpty then
        "AND Name IN ('".toList ++ joinQuoteComma names ++ "')".toList
      else []
    | none => []
  else []

/-- `_simplify_aggregation_query` (lines 173-226), fallback strategy (a).
The f-string templates are transcribed exactly; note `"UCLA average"` can
never occur in a lowercased query, as in the source. -/
def simplify_aggregation_query (user_query : Str) (entities : ResolvedEntities) :
    Option Str :=
  let lq := lowerStr user_query
  let pf := player_filter_of entities
  if containsSub ("average".toList) lq || containsSub ("avg".toList) lq then
    if (containsSub ("team average".toList) lq || containsSub ("UCLA average".toList) lq) &&
        containsSub ("points".toList) lq then
      some ("\n                    SELECT ROUND(AVG(Pts), 2) AS team_avg_points\n                     FROM ucla_player_stats\n                     WHERE Name = 'Totals'\n                    ").toList
    else if containsSub ("points".toList) lq then
      some (("\n                    SELECT Name, ROUND(AVG(Pts), 2) as avg_points\n                     FROM ucla_player_stats\n                     WHERE Name NOT IN ('Totals', 'TM', 'Team') ").toList ++ pf ++
        ("\n                     GROUP BY Name\n                     ORDER BY avg_points DESC\n                     LIMIT 10\n                    ").toList)
    else if containsSub ("rebounds".toList) lq then
      some (("\n                    SELECT Name, ROUND(AVG(Reb), 2) as avg_rebounds\n                     FROM ucla_player_stats\n                     WHERE Name NOT IN ('Totals', 'TM', 'Team') ").toList ++ pf ++
        ("\n                     GROUP BY Name\n                     ORDER BY avg_rebounds DESC\n                     LIMIT 10\n                    ").toList)
    else none
  else if containsSub ("total".toList) lq || containsSub ("sum".toList) lq then
    if containsSub ("points".toList) lq then
      some (("\n                    SELECT Name, SUM(Pts) as total_points\n                     FROM ucla_player_stats\n                     WHERE Name NOT IN ('Totals', 'TM', 'Team') ").toList ++ pf ++
        ("\n                     GROUP BY Name\n                     ORDER BY total_points DESC\n                     LIMIT 10\n                    ").toList)
    else none
  else none

/-- `_convert_to_basic_select` (lines 228-262), fallback strategy (b). -/
def convert_to_basic_select (user_query : Str) (entities : ResolvedEntities) :
    Option Str :=
  if entities.truthy && (match entities.player_names with
      | some names => !names.isEmpty
      | none => false) then
    match entities.player_names with
    | some names =>
      some (("\n                SELECT Name, Pts, Reb, Ast, \"TO\", Stl, Blk, Opponent, game_date\n                FROM ucla_player_stats\n                WHERE ").toList ++
        ("Name IN ('".toList ++ joinQuoteComma names ++ "')".toList) ++
        (" AND Name NOT IN ('Totals', 'TM', 'Team')\n                ORDER BY game_date DESC\n                LIMIT 20\n                ").toList)
    | none => none
  else if containsSub ("best".toList) (lowerStr user_query) ||
      containsSub ("top".toList) (lowerStr user_query) then
    some ("\n                SELECT Name, AVG(Pts) as avg_points, AVG(Reb) as avg_rebounds, AVG(Ast) as avg_assists\n                FROM ucla_player_stats\n                WHERE Name NOT IN ('Totals', 'TM', 'Team')\n                GROUP BY Name\n                ORDER BY avg_points DESC\n                LIMIT 10\n                ").toList
  else none

/-- `_create_player_lookup_query` (lines 264-278), fallback strategy (c). -/
def create_player_lookup_query (_user_query : Str) (_entities : ResolvedEntities) :
    Option Str :=
  some ("\n            SELECT DISTINCT Name, COUNT(*) as games_played\n            FROM ucla_player_stats\n            WHERE Name NOT IN ('Totals', 'TM', 'Team')\n            GROUP BY Name\n            ORDER BY games_played DESC\n            LIMIT 15\n            ").toList

/-- The appended note of a successful fallback (line 160). -/
def fallbackNote : Str :=
  "\n\n(Note: This answer uses a simplified query due to the complexity of your original request.)".toList

/-- The loop body of `_try_fallback_strategies` (lines 127-171) over a list
of strategies: each candidate is validated with `validate_sql` and executed;
an empty/None candidate, invalid SQL, an execution error, or an empty row
set all skip to the next strategy; nonempty rows win.  Besides the result,
the list of SQL statements sent to `exec` is returned, so "never reaches
strategy (b) or (c)" is expressible. -/
def try_fallback_go (exec : Str → Option (List Row) × Option String)
    (respond : Str → Str → List Row → Str) (uq : Str) (ents : ResolvedEntities)
    (original_error : String) :
    List (Str → ResolvedEntities → Option Str) → Option PipeResult × List Str
  | [] => (none, [])
  | strat :: rest =>
    match strat uq ents with
    | none => try_fallback_go exec respond uq ents original_error rest
    | some fallback_sql =>
      if fallback_sql.isEmpty then try_fallback_go exec respond uq ents original_error rest
      else if !(validate_sql fallback_sql).1 then
        try_fallback_go exec respond uq ents original_error rest
      else
        match exec fallback_sql with
        | (results, error) =>
          if error.isSome then
            (let r := try_fallback_go exec respond uq ents original_error rest
            (r.1, fallback_sql :: r.2))
          else
            match results with
            | some rs =>
              if !rs.isEmpty then
                (some { user_query := uq, extracted_entities := some ents,
                        sql_query := some fallback_sql, query_results := some rs,
                        response := respond uq fallback_sql rs ++ fallbackNote,
                        success := true, fallback_used := some true,
                        original_error := some original_error }, [fallback_sql])
              else
                (let r := try_fallback_go exec respond uq ents original_error rest
                (r.1, fallback_sql :: r.2))
            | none =>
              (let r := try_fallback_go exec respond uq ents original_error rest
              (r.1, fallback_sql :: r.2))

/-- `fallback_strategies` (lines 29-33), in construction order. -/
def fallback_strategies : List (Str → ResolvedEntities → Option Str) :=
  [simplify_aggregation_query, convert_to_basic_select, create_player_lookup_query]

def try_fallback_strategies (exec : Str → Option (List Row) × Option String)
    (respond : Str → Str → List Row → Str) (uq : Str) (ents : ResolvedEntities)
    (original_error : String) : Option PipeResult × List Str :=
  try_fallback_go exec respond uq ents original_error fallback_strategies

/-- Lazy `.*?` without re.DOTALL followed by `p`: scan forward without
crossing a newline; earliest match first.  For the player-filter pattern
below, failure of the later pattern parts is monotone in these scan
positions (later candidates search sub-regions of earlier ones), so this
greedy-free scan is equivalent to Python's full backtracking. -/
def lazyLine {α : Type} (p : Str → Option α) : Str → Option α
  | [] => p []
  | c :: cs =>
    match p (c :: cs) with
    | some v => some v
    | none => if c == '\n' then none else lazyLine p cs

/-- The `'[^']*'.*?AND` tail: try each opening-quote candidate (not crossing
a newline) in order; its closing quote is the next quote (the greedy
`[^']*` may cross newlines); then lazily `AND`.  On failure, backtrack to
the next opening-quote candidate, as Python does. -/
def quoteAndTail : Str → Option Str
  | [] => none
  | c :: cs =>
    if c == '\'' then
      match chP '\'' (cs.drop ((cs.takeWhile (fun d => !(d == '\''))).length)) with
      | some r5 =>
        match lazyLine (litCI ("AND".toList)) r5 with
        | some r6 => some r6
        | none => quoteAndTail cs
      | none => quoteAndTail cs
    else if c == '\n' then none
    else quoteAndTail cs

/-- `WHERE.*?Name.*?=.*?'[^']*'.*?AND` → `WHERE` (line 287-292,
re.IGNORECASE, no re.DOTALL). -/
def wherePlayerFilterM : Matcher := fun _ s =>
  match litCI ("WHERE".toList) s with
  | some r1 =>
    match lazyLine (litCI ("Name".toList)) r1 with
    | some r2 =>
      match lazyLine (chP '=') r2 with
      | some r3 =>
        match quoteAndTail r3 with
        | some r6 => some ("WHERE".toList, s.length - r6.length - 1)
        | none => none
      | none => none
    | none => none
  | none => none

/-- Prefix of the empty-result repair's response (line 297). -/
def emptyFallbackPrefix : Str :=
  "I couldn't find specific data for that player. Here's what I found instead:\n".toList

/-- `_handle_empty_results` (lines 280-309). -/
def handle_empty_results (exec : Str → Option (List Row) × Option String)
    (respond : Str → Str → List Row → Str) (user_query : Str)
    (entities : ResolvedEntities) (sql_query : Str) : Option PipeResult :=
  if entities.truthy && (match entities.player_names with
      | some names => !names.isEmpty
      | none => false) then
    if !(reSub wherePlayerFilterM sql_query == sql_query) then
      match exec (reSub wherePlayerFilterM sql_query) with
      | (some results, none) =>
        if !results.isEmpty then
          some { user_query := user_query,
                 sql_query := some (reSub wherePlayerFilterM sql_query),
                 query_results := some (results.take 5),
                 response := emptyFallbackPrefix ++
                   respond user_query (reSub wherePlayerFilterM sql_query) (results.take 5),
                 success := true, fallback_used := some true }
        else none
      | _ => none
    else none
  else none

/-- `_create_error_response` (lines 311-320). -/
def create_error_response (user_query : Str) (error : String) (user_message : Str) :
    PipeResult :=
  { user_query := user_query, error := some error, sql_query := none,
    query_results := none, response := user_message, success := false }

/-- `_create_empty_response` (lines 322-331). -/
def create_empty_response (user_query sql_query : Str) : PipeResult :=
  { user_query := user_query, sql_query := some sql_query, query_results := some [],
    response := ("I couldn't find any data matching your criteria. Please try rephrasing your question or asking about different players or statistics.").toList,
    success := false, empty_results := some true }

/-- `RAGPipeline.process_query` (lines 35-125).  The outer try/except turns
a raised extraction error into an error response; in this total model only
the extraction outcome can carry an error. -/
def process_query (extractRes : Except String ResolvedEntities)
    (gen : Str → ResolvedEntities → Option Str)
    (exec : Str → Option (List Row) × Option String)
    (respond : Str → Str → List Row → Str) (user_query : Str) : PipeResult :=
  match extractRes with
  | .error e =>
    create_error_response user_query e
      ("I encountered an unexpected error while processing your request. Please try again or rephrase your question.").toList
  | .ok extracted_entities =>
    match gen user_query extracted_entities with
    | none =>
      create_error_response user_query "Failed to generate SQL query"
        ("The system could not create a valid SQL query for your request.").toList
    | some sql_query =>
      if sql_query.isEmpty then
        create_error_response user_query "Failed to generate SQL query"
          ("The system could not create a valid SQL query for your request.").toList
      else
        match validate_sql sql_query with
        | (false, validation_error) =>
          match (try_fallback_strategies exec respond user_query extracted_entities
              ((validation_error.getD ""))).1 with
          | some r => r
          | none =>
            create_error_response user_query
              ("SQL validation failed: " ++ (validation_error.getD ""))
              ("The system generated an incompatible query. Please try rephrasing your question.").toList
        | (true, _) =>
          match exec sql_query with
          | (_, some sql_error) =>
            match (try_fallback_strategies exec respond user_query extracted_entities
                sql_error).1 with
            | some r => r
            | none =>
              create_error_response user_query ("SQL execution failed: " ++ sql_error)
                ("There was an error running your query. Please try a simpler version of your question.").toList
          | (some results, none) =>
            if results.isEmpty then
              match handle_empty_results exec respond user_query extracted_entities
                  sql_query with
              | some r => r
              | none => create_empty_response user_query sql_query
            else
              { user_query := user_query, extracted_entities := some extracted_entities,
                sql_query := some sql_query, query_results := some results,
                response := respond user_query sql_query results, success := true }
          | (none, none) =>
            match handle_empty_results exec respond user_query extracted_entities
                sql_query with
            | some r => r
            | none => create_empty_response user_query sql_query

/-- C5: if fallback strategy (a), the simplified aggregation, yields SQL
that validates, executes without error and returns at least one row, the
ladder returns exactly that result and only (a)'s SQL is ever executed —
strategies (b) and (c) are never invoked: first success wins in the fixed
order (a), (b), (c). -/
theorem try_fallback_first_strategy_wins
    (exec : Str → Option (List Row) × Option String)
    (respond : Str → Str → List Row → Str) (uq : Str) (ents : ResolvedEntities)
    (err : String) (sqlA : Str) (rowsA : List Row)
    (ha : simplify_aggregation_query uq ents = some sqlA)
    (hval : (validate_sql sqlA).1 = true)
    (hexec : exec sqlA = (some rowsA, none))
    (hne : rowsA.isEmpty = false) :
    try_fallback_strategies exec respond uq ents err =
      (some { user_query := uq, extracted_entities := some ents, sql_query := some sqlA,
              query_results := some rowsA,
              response := respond uq sqlA rowsA ++ fallbackNote,
              success := true, fallback_used := some true, original_error := some err },
        [sqlA]) := by
  have hnotempty : sqlA.isEmpty = false := by
    cases sqlA with
    | nil => exact absurd hval (by decide)
    | cons c cs => rfl
  unfold try_fallback_strategies fallback_strategies
  simp only [try_fallback_go, ha, hnotempty, hval, hexec, hne, Bool.not_true,
    Bool.false_eq_true, if_false, Option.isSome_none, Bool.not_false, if_true]

def c5Exec : Str → Option (List Row) × Option String :=
  fun _ => (some [["Betts, Lauren", "20.0"]], none)

def c5Respond : Str → Str → List Row → Str := fun _ _ _ => ("ok").toList

def c5Uq : Str := "average points".toList

def c5Ents : ResolvedEntities := {}

def c5Sql : Str :=
  ("\n                    SELECT Name, ROUND(AVG(Pts), 2) as avg_points\n                     FROM ucla_player_stats\n                     WHERE Name NOT IN ('Totals', 'TM', 'Team') \n                     GROUP BY Name\n                     ORDER BY avg_points DESC\n                     LIMIT 10\n                    ").toList

set_option maxRecDepth 100000 in
/-- C5 witness: the "average points" query with no resolved player,
instantiating `try_fallback_first_strategy_wins`. -/
theorem try_fallback_first_strategy_wins_witness :
    simplify_aggregation_query c5Uq c5Ents = some c5Sql ∧
    (validate_sql c5Sql).1 = true ∧
    c5Exec c5Sql = (some [["Betts, Lauren", "20.0"]], none) ∧
    ([["Betts, Lauren", "20.0"]] : List Row).isEmpty = false ∧
    try_fallback_strategies c5Exec c5Respond c5Uq c5Ents "err" =
      (some { user_query := c5Uq, extracted_entities := some c5Ents,
              sql_query := some c5Sql,
              query_results := some [["Betts, Lauren", "20.0"]],
              response := c5Respond c5Uq c5Sql [["Betts, Lauren", "20.0"]] ++ fallbackNote,
              success := true, fallback_used := some true, original_error := some "err" },
        [c5Sql]) :=
  ⟨by decide, by decide, rfl, rfl,
    try_fallback_first_strategy_wins c5Exec c5Respond c5Uq c5Ents "err" c5Sql
      [["Betts, Lauren", "20.0"]] (by decide) (by decide) rfl rfl⟩

/-- C9: when generation succeeds, validation passes, execution returns zero
rows without an error, and the targeted empty-result repair yields nothing
(or does not apply), `process_query` returns the distinguished empty-results
record: `success = false`, `empty_results = true`, and no `error` field. -/
theorem process_query_empty_results (extracted : ResolvedEntities)
    (gen : Str → ResolvedEntities → Option Str)
    (exec : Str → Option (List Row) × Option String)
    (respond : Str → Str → List Row → Str) (uq sql : Str)
    (hgen : gen uq extracted = some sql)
    (hval : (validate_sql sql).1 = true)
    (hexec : exec sql = (some [], none))
    (hrep : handle_empty_results exec respond uq extracted sql = none) :
    process_query (.ok extracted) gen exec respond uq = create_empty_response uq sql ∧
    (create_empty_response uq sql).success = false ∧
    (create_empty_response uq sql).empty_results = some true ∧
    (create_empty_response uq sql).error = none := by
  have hnotempty : sql.isEmpty = false := by
    cases sql with
    | nil => exact absurd hval (by decide)
    | cons c cs => rfl
  refine ⟨?_, rfl, rfl, rfl⟩
  unfold process_query
  rcases hv : validate_sql sql with ⟨b, reason⟩
  have hb : b = true := by rw [hv] at hval; exact hval
  subst hb
  simp only [hgen, hnotempty, hv, hexec, hrep, Bool.false_eq_true, if_false,
    List.isEmpty_nil, if_true]

def c9Gen : Str → ResolvedEntities → Option Str :=
  fun _ _ => some ("SELECT Pts FROM ucla_player_stats".toList)

def c9Exec : Str → Option (List Row) × Option String := fun _ => (some [], none)

def c9Respond : Str → Str → List Row → Str := fun _ _ _ => ("no rows").toList

def c9Uq : Str := "points for an unknown matchup".toList

def c9Sql : Str := "SELECT Pts FROM ucla_player_stats".toList

set_option maxRecDepth 100000 in
/-- C9 witness: a validated query returning zero rows with no applicable
repair, instantiating `process_query_empty_results`. -/
theorem process_query_empty_results_witness :
    c9Gen c9Uq {} = some c9Sql ∧
    (validate_sql c9Sql).1 = true ∧
    c9Exec c9Sql = (some [], none) ∧
    handle_empty_results c9Exec c9Respond c9Uq {} c9Sql = none ∧
    (process_query (.ok {}) c9Gen c9Exec c9Respond c9Uq = create_empty_response c9Uq c9Sql ∧
      (create_empty_response c9Uq c9Sql).success = false ∧
      (create_empty_response c9Uq c9Sql).empty_results = some true ∧
      (create_empty_response c9Uq c9Sql).error = none) :=
  ⟨rfl, by decide, rfl, rfl,
    process_query_empty_results {} c9Gen c9Exec c9Respond c9Uq c9Sql rfl (by decide) rfl rfl⟩
